import Mathlib

/-!
# Trivium — verification of the real-time game-state and scoring core

A shallow embedding of the Trivium trivia server:

* `src/server/database.js` — SQLite tables `players`, `player_answers`,
  `pending_points`, `buzzer_responses` become lists of records; the scoring,
  pending-points and buzzer methods become pure functions on a `DB` value.
* the server-side `GameState` class — its `state` object becomes `SState`,
  partial-state deltas become `StateDelta`, and the `setInterval` /
  `clearInterval` timer machinery becomes an explicit registry of live
  interval handles.
* `src/server/server.js` `handleGameAction` — becomes `dispatch` over a
  `World` bundling the game state, the database, the question bank and the
  list of emitted websocket events.

JavaScript numbers are modelled as `Int` where the code only ever stores
integers (ids, scores, points) and as `ℚ` for the time fields fed to the
time-decay formula; `Math.round` becomes `jsRound`, and the JavaScript
`x || d` default idiom (which treats `0` and `null` as falsy) becomes
`jsIntOr` / `jsOptIntOr` / `jsOptBoolOr`.
-/

namespace Trivium

/-- `Math.round x` in JavaScript: floor of `x + 1/2`. -/
def jsRound (x : ℚ) : Int := ⌊x + 1/2⌋

/-- `v || d` for a JavaScript number already known non-null: `0` is falsy. -/
def jsIntOr (v d : Int) : Int := if v = 0 then d else v

/-- `v || d` for a nullable JavaScript number: `null` and `0` are falsy. -/
def jsOptIntOr (o : Option Int) (d : Int) : Int :=
  match o with
  | some v => jsIntOr v d
  | none => d

/-- `v || false` for a nullable JavaScript boolean. -/
def jsOptBoolOr (o : Option Bool) : Bool := o.getD false

/-! ## Database rows (`src/server/database.js` schema) -/

/-- A row of the `players` table (the fields the core reads). -/
structure Player where
  id : Int
  score : Int
deriving Repr, DecidableEq

/-- A row of `player_answers`; `UNIQUE(player_id, question_id)`.
`isCorrect` is `NULL` until judged, `timeRemaining` / `timeLimit` record the
timer at submission, `lockedScore` is the optional frozen score snapshot. -/
structure AnswerRecord where
  playerId : Int
  questionId : Int
  isCorrect : Option Bool
  timeRemaining : Option ℚ
  timeLimit : Option ℚ
  lockedScore : Option Int
deriving Repr, DecidableEq

/-- A row of `pending_points`; `UNIQUE(player_id, question_id)`. -/
structure PendingRecord where
  playerId : Int
  questionId : Int
  points : Int
  playerName : String
  answer : String
deriving Repr, DecidableEq

/-- A row of `buzzer_responses`; `UNIQUE(player_id, question_id)`. -/
structure BuzzerEntry where
  playerId : Int
  teamId : Option Int
  questionId : Int
  buzzOrder : Int
deriving Repr, DecidableEq

/-- The mutable relational store, restricted to the tables the game core
reads and writes. -/
structure DB where
  players : List Player
  answers : List AnswerRecord
  pending : List PendingRecord
  buzzes : List BuzzerEntry
deriving Repr, DecidableEq

/-- The `game_settings` columns consumed by `scoreCorrectAnswersForQuestion`
(each nullable; the code applies `|| 10`, `|| false`, `|| 25` defaults). -/
structure GameSettings where
  scoreMultiplier : Option Int
  timerEatsPoints : Option Bool
  minPointsPercentage : Option Int
deriving Repr, DecidableEq

/-- One element of the `scoreUpdates` array both scoring paths build and the
server broadcasts as a `player_score_updated` message. -/
structure ScoreUpdate where
  playerId : Int
  newScore : Int
  pointsAwarded : Int
deriving Repr, DecidableEq

/-- `UPDATE players SET score = ? WHERE id = ?`. -/
def DB.updatePlayerScore (db : DB) (pid newScore : Int) : DB :=
  { db with players :=
      db.players.map (fun p => if p.id = pid then { p with score := newScore } else p) }

/-- `SELECT score FROM players WHERE id = ?` (first matching row). -/
def lookupScore (db : DB) (pid : Int) : Option Int :=
  (db.players.find? (fun p => decide (p.id = pid))).map (fun p => p.score)

/-! ## Objective (multiple-choice) scoring —
`database.js scoreCorrectAnswersForQuestion` -/

/-- The per-row points computation inside `scoreCorrectAnswersForQuestion`:
use `locked_score` verbatim when present; otherwise the flat multiplier,
replaced by `Math.round(multiplier * max(minPct/100, remaining/limit))` when
`timer_eats_points` is on and both time fields are non-null with a positive
limit. -/
def pointsForAnswer (scoreMultiplier : Int) (timerEats : Bool) (minPct : Int)
    (a : AnswerRecord) : Int :=
  match a.lockedScore with
  | some ls => ls
  | none =>
    match a.timeRemaining, a.timeLimit with
    | some tr, some tl =>
      if timerEats = true ∧ 0 < tl then
        jsRound ((scoreMultiplier : ℚ) * max ((minPct : ℚ) / 100) (tr / tl))
      else scoreMultiplier
    | some _, none => scoreMultiplier
    | none, some _ => scoreMultiplier
    | none, none => scoreMultiplier

/-- The join
`SELECT pa.player_id, p.score, ... FROM player_answers pa JOIN players p
ON pa.player_id = p.id WHERE pa.question_id = ? AND pa.is_correct = 1`:
each correct answer for the question paired with the player's current score
(rows whose player id has no `players` row drop out of the join). -/
def correctRowsFor (db : DB) (qid : Int) : List (AnswerRecord × Int) :=
  (db.answers.filter
      (fun a => decide (a.questionId = qid ∧ a.isCorrect = some true))).filterMap
    (fun a => (db.players.find? (fun p => decide (p.id = a.playerId))).map
      (fun p => (a, p.score)))

/-- Applies a list of score updates to the store, in order
(each `updatePlayerScore` call of the JavaScript loop). -/
def applyScoreUpdates (us : List ScoreUpdate) (db : DB) : DB :=
  us.foldl (fun d u => d.updatePlayerScore u.playerId u.newScore) db

/-- `scoreCorrectAnswersForQuestion(questionId, cb)`: read the (defaulted)
settings, select all correct answers for the question joined with current
scores, compute each player's points, write each `current_score + points`
back, and return the `scoreUpdates` array. There is no already-scored guard:
every call re-awards every correct answer it selects. -/
def scoreCorrectAnswersForQuestion (settings : GameSettings) (db : DB) (qid : Int) :
    DB × List ScoreUpdate :=
  let scoreMultiplier := jsOptIntOr settings.scoreMultiplier 10
  let timerEats := jsOptBoolOr settings.timerEatsPoints
  let minPct := jsOptIntOr settings.minPointsPercentage 25
  let updates := (correctRowsFor db qid).map (fun r =>
    let pts := pointsForAnswer scoreMultiplier timerEats minPct r.1
    { playerId := r.1.playerId, newScore := r.2 + pts, pointsAwarded := pts })
  (applyScoreUpdates updates db, updates)

/-! ## Pending points — `database.js addPendingPoints` /
`commitPendingPointsForQuestion`, `routes/pending-points.js` -/

/-- `SELECT * FROM pending_points WHERE question_id = ?`. -/
def pendingFor (db : DB) (qid : Int) : List PendingRecord :=
  db.pending.filter (fun r => decide (r.questionId = qid))

/-- `addPendingPoints` (the `/api/pending-points/award` route):
`INSERT OR REPLACE INTO pending_points ...` — under
`UNIQUE(player_id, question_id)` this deletes any existing row for the pair
and inserts a fresh row carrying exactly the given points. -/
def addPendingPoints (db : DB) (pid qid points : Int) (playerName answer : String) : DB :=
  { db with pending :=
      db.pending.filter (fun r => !(decide (r.playerId = pid ∧ r.questionId = qid))) ++
        [{ playerId := pid, questionId := qid, points := points,
           playerName := playerName, answer := answer }] }

/-- The join of `commitPendingPointsForQuestion`:
`SELECT pp.*, p.score FROM pending_points pp JOIN players p
ON pp.player_id = p.id WHERE pp.question_id = ?`. -/
def commitRowsFor (db : DB) (qid : Int) : List (PendingRecord × Int) :=
  (pendingFor db qid).filterMap
    (fun r => (db.players.find? (fun p => decide (p.id = r.playerId))).map
      (fun p => (r, p.score)))

/-- `commitPendingPointsForQuestion(questionId, cb)`: when the join is empty,
return `[]` without touching the store; otherwise write
`current_score + points` for every joined row, then
`DELETE FROM pending_points WHERE question_id = ?`, and return the
`scoreUpdates` array. -/
def commitPendingPointsForQuestion (db : DB) (qid : Int) : DB × List ScoreUpdate :=
  let rows := commitRowsFor db qid
  if rows = [] then (db, [])
  else
    let updates := rows.map (fun r =>
      { playerId := r.1.playerId, newScore := r.2 + r.1.points,
        pointsAwarded := r.1.points })
    let db1 := applyScoreUpdates updates db
    ({ db1 with pending :=
        db1.pending.filter (fun r => !(decide (r.questionId = qid))) }, updates)

/-- The score updates a commit of the question's pending rows is expected to
produce: one per pending row, adding the row's points to the player's
current score. -/
def commitUpdates (db : DB) (qid : Int) : List ScoreUpdate :=
  (pendingFor db qid).map (fun r =>
    { playerId := r.playerId,
      newScore := (lookupScore db r.playerId).getD 0 + r.points,
      pointsAwarded := r.points })

/-! ## Buzzer — `database.js submitBuzzerResponse` -/

/-- `SELECT * FROM buzzer_responses WHERE question_id = ?`. -/
def buzzesFor (db : DB) (qid : Int) : List BuzzerEntry :=
  db.buzzes.filter (fun b => decide (b.questionId = qid))

/-- `submitBuzzerResponse(playerId, teamId, questionId, cb)`: count the
existing entries for the question, then
`INSERT OR REPLACE INTO buzzer_responses ... buzz_order = count + 1` —
under `UNIQUE(player_id, question_id)` a repeat buzz deletes the player's
previous entry and inserts a fresh one with the new order. -/
def submitBuzzerResponse (db : DB) (pid : Int) (tid : Option Int) (qid : Int) :
    DB × BuzzerEntry :=
  let count := (buzzesFor db qid).length
  let entry : BuzzerEntry :=
    { playerId := pid, teamId := tid, questionId := qid, buzzOrder := (count : Int) + 1 }
  ({ db with buzzes :=
      db.buzzes.filter (fun b => !(decide (b.playerId = pid ∧ b.questionId = qid))) ++
        [entry] }, entry)

/-- A sequence of players buzzing in on the same question, in order. -/
def submitAll (db : DB) (qid : Int) (ps : List Int) : DB :=
  ps.foldl (fun d pid => (submitBuzzerResponse d pid none qid).1) db

/-- `(p₁, n), (p₂, n+1), …`: the expected (player, rank) assignment starting
at rank `n`. -/
def ranksFrom (n : Int) : List Int → List (Int × Int)
  | [] => []
  | p :: ps => (p, n) :: ranksFrom (n + 1) ps

/-! ## The `GameState` class (server game-state module) -/

/-- The `feudState` sub-object of `GameState.state`. -/
structure FeudState where
  activeTeam : Option Int
  opposingTeam : Option Int
  gamePhase : String
  teamAnswerCount : Int
  maxAnswersPerTeam : Int
  strikes : Int
  buzzerOrder : List Int
  currentBuzzerIndex : Int
  lastAnswerCorrect : Option Bool
deriving Repr, DecidableEq

/-- `GameState.state`: the single authoritative session state object. -/
structure SState where
  gameStarted : Bool
  firstQuestionStarted : Bool
  currentSlide : Int
  showAnswer : Bool
  timer : Int
  isTimerRunning : Bool
  selectedCategories : List String
  questionLimit : Option Int
  timeLimit : Int
  timedRounds : Bool
  gameTitle : String
  gameSubtitle : String
  showQuestionCounter : Bool
  showWaitScreen : Bool
  playerMode : Bool
  includedQuestions : List Int
  feudState : FeudState
deriving Repr, DecidableEq

/-- The constructor's `feudState` literal. -/
def initFeudState : FeudState :=
  { activeTeam := none, opposingTeam := none, gamePhase := "setup",
    teamAnswerCount := 0, maxAnswersPerTeam := 3, strikes := 0,
    buzzerOrder := [], currentBuzzerIndex := 0, lastAnswerCorrect := none }

/-- The `GameState` constructor's initial `this.state`. -/
def initSState : SState :=
  { gameStarted := false, firstQuestionStarted := false, currentSlide := 0,
    showAnswer := false, timer := 30, isTimerRunning := false,
    selectedCategories := [], questionLimit := none, timeLimit := 30,
    timedRounds := true, gameTitle := "TRIVIA NIGHT",
    gameSubtitle := "Get Ready to Play!", showQuestionCounter := false,
    showWaitScreen := true, playerMode := false, includedQuestions := [],
    feudState := initFeudState }

/-- A partial-state object passed to `updateState`: a key is either absent
(`none`) or present with a new value (`some v`). -/
structure StateDelta where
  gameStarted : Option Bool := none
  firstQuestionStarted : Option Bool := none
  currentSlide : Option Int := none
  showAnswer : Option Bool := none
  timer : Option Int := none
  isTimerRunning : Option Bool := none
  selectedCategories : Option (List String) := none
  questionLimit : Option (Option Int) := none
  timeLimit : Option Int := none
  timedRounds : Option Bool := none
  gameTitle : Option String := none
  gameSubtitle : Option String := none
  showQuestionCounter : Option Bool := none
  showWaitScreen : Option Bool := none
  playerMode : Option Bool := none
  includedQuestions : Option (List Int) := none
  feudState : Option FeudState := none
deriving Repr, DecidableEq

/-- The JavaScript spread `{ ...this.state, ...newState }`: keys present in
the delta override, absent keys keep the previous value. -/
def mergeState (s : SState) (d : StateDelta) : SState :=
  { gameStarted := d.gameStarted.getD s.gameStarted,
    firstQuestionStarted := d.firstQuestionStarted.getD s.firstQuestionStarted,
    currentSlide := d.currentSlide.getD s.currentSlide,
    showAnswer := d.showAnswer.getD s.showAnswer,
    timer := d.timer.getD s.timer,
    isTimerRunning := d.isTimerRunning.getD s.isTimerRunning,
    selectedCategories := d.selectedCategories.getD s.selectedCategories,
    questionLimit := d.questionLimit.getD s.questionLimit,
    timeLimit := d.timeLimit.getD s.timeLimit,
    timedRounds := d.timedRounds.getD s.timedRounds,
    gameTitle := d.gameTitle.getD s.gameTitle,
    gameSubtitle := d.gameSubtitle.getD s.gameSubtitle,
    showQuestionCounter := d.showQuestionCounter.getD s.showQuestionCounter,
    showWaitScreen := d.showWaitScreen.getD s.showWaitScreen,
    playerMode := d.playerMode.getD s.playerMode,
    includedQuestions := d.includedQuestions.getD s.includedQuestions,
    feudState := d.feudState.getD s.feudState }

/-- A websocket frame this server pushes to one client: either the full-state
`GAME_STATE_UPDATE` or one of the tagged event messages sent through
`broadcast`. -/
inductive Msg where
  | stateUpdate (st : SState)
  | event (tag : String)
deriving Repr, DecidableEq

/-- The whole `GameState` instance plus its timer environment: `live` is the
set of interval callbacks currently scheduled by `setInterval` (fresh handles
come from `nextHandle`), `timerInterval` mirrors `this.timerInterval`, and
`sends` records every frame pushed to a client, in order. -/
structure GS where
  state : SState
  clients : List Nat
  timerInterval : Option Nat
  live : List Nat
  nextHandle : Nat
  sends : List (Nat × Msg)
deriving Repr, DecidableEq

/-- `broadcastState()`: push the current full state to every client. -/
def GS.broadcastState (g : GS) : GS :=
  { g with sends := g.sends ++ g.clients.map (fun c => (c, Msg.stateUpdate g.state)) }

/-- `broadcast(message)` for the tagged event messages. -/
def GS.broadcastEvent (g : GS) (tag : String) : GS :=
  { g with sends := g.sends ++ g.clients.map (fun c => (c, Msg.event tag)) }

/-- `startTimer()`: `clearInterval` any existing interval, then `setInterval`
a fresh tick loop and remember its handle. -/
def GS.startTimer (g : GS) : GS :=
  let cleared :=
    match g.timerInterval with
    | some h => g.live.filter (fun x => !(decide (x = h)))
    | none => g.live
  { g with live := cleared ++ [g.nextHandle], timerInterval := some g.nextHandle,
           nextHandle := g.nextHandle + 1 }

/-- `stopTimer()`: `clearInterval` the remembered handle, if any. -/
def GS.stopTimer (g : GS) : GS :=
  match g.timerInterval with
  | some h =>
    { g with live := g.live.filter (fun x => !(decide (x = h))), timerInterval := none }
  | none => g

/-- The trailing timer logic of `updateState`: only a delta that carries the
`isTimerRunning` key starts or stops the interval. -/
def GS.applyTimerLogic (g : GS) (o : Option Bool) : GS :=
  match o with
  | some true => g.startTimer
  | some false => g.stopTimer
  | none => g

/-- `updateState(newState)`: merge the delta into `this.state`, broadcast the
merged full state, then run the timer logic keyed on `newState.isTimerRunning`. -/
def GS.updateState (g : GS) (d : StateDelta) : GS :=
  (({ g with state := mergeState g.state d }).broadcastState).applyTimerLogic
    d.isTimerRunning

/-- `resetTimer()`: stop the interval, then set `timer` to
`this.state.timeLimit || 30` and `isTimerRunning` to false. -/
def GS.resetTimer (g : GS) : GS :=
  let g1 := g.stopTimer
  g1.updateState { timer := some (jsIntOr g1.state.timeLimit 30),
                   isTimerRunning := some false }

/-- `startGame()`. -/
def GS.startGame (g : GS) : GS :=
  (g.updateState { gameStarted := some true, firstQuestionStarted := some false,
                   currentSlide := some 0, showAnswer := some false }).resetTimer

/-- `endGame()`. -/
def GS.endGame (g : GS) : GS :=
  (g.updateState { gameStarted := some false, firstQuestionStarted := some false,
                   currentSlide := some 0, showAnswer := some false }).resetTimer

/-- `nextSlide()`: reset the timer first, then move the index one step up with
no upper clamp, hiding the answer and the question. -/
def GS.nextSlide (g : GS) : GS :=
  let g1 := g.resetTimer
  g1.updateState { currentSlide := some (g1.state.currentSlide + 1),
                   showAnswer := some false, firstQuestionStarted := some false,
                   isTimerRunning := some false }

/-- `prevSlide()`: like `nextSlide` but `Math.max(0, currentSlide - 1)`. -/
def GS.prevSlide (g : GS) : GS :=
  let g1 := g.resetTimer
  g1.updateState { currentSlide := some (max 0 (g1.state.currentSlide - 1)),
                   showAnswer := some false, firstQuestionStarted := some false,
                   isTimerRunning := some false }

/-- `showQuestion()`. -/
def GS.showQuestion (g : GS) : GS :=
  g.updateState { firstQuestionStarted := some true }

/-- `toggleAnswer()`: flip `showAnswer` and force the timer off. -/
def GS.toggleAnswer (g : GS) : GS :=
  g.updateState { showAnswer := some (!g.state.showAnswer),
                  isTimerRunning := some false }

/-- The body of the `setInterval` callback: while `timer > 0` mutate the raw
state (no timer logic re-entry) and broadcast; at zero, turn the flag off via
`updateState` and stop the interval. -/
def GS.tickBody (g : GS) : GS :=
  if 0 < g.state.timer then
    ({ g with state := { g.state with timer := g.state.timer - 1 } }).broadcastState
  else
    (g.updateState { isTimerRunning := some false }).stopTimer

/-- `initializeFeudGame(activeTeamId, opposingTeamId)`. -/
def GS.initializeFeudGame (g : GS) (activeId opposingId : Int) : GS :=
  let fs := { g.state.feudState with
      activeTeam := some activeId, opposingTeam := some opposingId,
      gamePhase := "face-off", teamAnswerCount := 0, strikes := 0,
      buzzerOrder := [], currentBuzzerIndex := 0, lastAnswerCorrect := none }
  (g.updateState { feudState := some fs }).broadcastEvent "feud_game_initialized"

/-- `switchFeudTeams()`: swap the team ids, reset the per-team answer count
and buzz queue, and set the phase to team-play. The spread copies every other
`feudState` field unchanged — including `strikes`. -/
def GS.switchFeudTeams (g : GS) : GS :=
  let currentActive := g.state.feudState.activeTeam
  let currentOpposing := g.state.feudState.opposingTeam
  let fs := { g.state.feudState with
      activeTeam := currentOpposing, opposingTeam := currentActive,
      teamAnswerCount := 0, buzzerOrder := [], currentBuzzerIndex := 0,
      gamePhase := "team-play" }
  (g.updateState { feudState := some fs }).broadcastEvent "feud_teams_switched"

/-- `addFeudStrike()`: bump the strike counter; at three or more, switch
teams; then broadcast. -/
def GS.addFeudStrike (g : GS) : GS :=
  let newStrikes := g.state.feudState.strikes + 1
  let fs := { g.state.feudState with strikes := newStrikes }
  let g1 := g.updateState { feudState := some fs }
  let g2 := if 3 ≤ newStrikes then g1.switchFeudTeams else g1
  g2.broadcastEvent "feud_strike_added"

/-- `removeFeudStrike()`: `Math.max(0, strikes - 1)`. -/
def GS.removeFeudStrike (g : GS) : GS :=
  let fs := { g.state.feudState with strikes := max 0 (g.state.feudState.strikes - 1) }
  (g.updateState { feudState := some fs }).broadcastEvent "feud_strike_removed"

/-- `setFeudGamePhase(phase)`. -/
def GS.setFeudGamePhase (g : GS) (phase : String) : GS :=
  let fs := { g.state.feudState with gamePhase := phase }
  (g.updateState { feudState := some fs }).broadcastEvent "feud_phase_changed"

/-- A freshly constructed `GameState` with no clients and no interval. -/
def initGS : GS :=
  { state := initSState, clients := [], timerInterval := none, live := [],
    nextHandle := 0, sends := [] }

/-- The externally reachable operations on the `GameState` instance: the
websocket / REST entry points plus the scheduler firing a live interval
callback. Raw `startTimer` / `stopTimer` are not here because no route calls
them directly — timers start and stop through `updateState` deltas. -/
inductive Act where
  | updateState (d : StateDelta)
  | resetTimer
  | startGame
  | endGame
  | nextSlide
  | prevSlide
  | showQuestion
  | toggleAnswer
  | tick (h : Nat)
  | addClient (c : Nat)
  | removeClient (c : Nat)
  | initializeFeud (a b : Int)
  | switchTeams
  | addStrike
  | removeStrike
  | setPhase (p : String)
deriving Repr, DecidableEq

/-- One externally triggered step. The scheduler can only fire an interval
that is still live; `addClient` registers the socket and sends it the current
state. -/
def stepAct (g : GS) (a : Act) : GS :=
  match a with
  | .updateState d => g.updateState d
  | .resetTimer => g.resetTimer
  | .startGame => g.startGame
  | .endGame => g.endGame
  | .nextSlide => g.nextSlide
  | .prevSlide => g.prevSlide
  | .showQuestion => g.showQuestion
  | .toggleAnswer => g.toggleAnswer
  | .tick h => if g.live.contains h then g.tickBody else g
  | .addClient c =>
    { g with clients := g.clients ++ [c],
             sends := g.sends ++ [(c, Msg.stateUpdate g.state)] }
  | .removeClient c =>
    { g with clients := g.clients.filter (fun x => !(decide (x = c))) }
  | .initializeFeud a b => g.initializeFeudGame a b
  | .switchTeams => g.switchFeudTeams
  | .addStrike => g.addFeudStrike
  | .removeStrike => g.removeFeudStrike
  | .setPhase p => g.setFeudGamePhase p

/-- Run a sequence of externally triggered operations. -/
def runActs (g : GS) (acts : List Act) : GS := acts.foldl stepAct g

/-! ## The action dispatcher — `server.js handleGameAction` -/

/-- A row of the `questions` table, restricted to what the dispatcher reads:
`type` is `"multiple_choice"`, `"write_in"`, … -/
structure Question where
  id : Int
  category : String
  qtype : String
deriving Repr, DecidableEq

/-- The question filtering inside `server.js getCurrentQuestionId`, mirroring
the frontend: a non-empty `includedQuestions` playlist wins (resolved in
playlist order, unknown ids dropped); otherwise filter by
`selectedCategories` when non-empty, then apply a positive `questionLimit`
as a prefix. -/
def filteredQuestions (qs : List Question) (st : SState) : List Question :=
  if st.includedQuestions.length > 0 then
    st.includedQuestions.filterMap (fun i => qs.find? (fun q => decide (q.id = i)))
  else
    let f1 :=
      if st.selectedCategories.length > 0 then
        qs.filter (fun q => st.selectedCategories.contains q.category)
      else qs
    match st.questionLimit with
    | some l => if 0 < l then f1.take l.toNat else f1
    | none => f1

/-- The websocket frames `handleGameAction` pushes besides the state
broadcasts (the ones the scoring claims count). -/
inductive Event where
  | playerScoreUpdated (playerId newScore : Int)
  | pendingCommitted (qid : Int)
deriving Repr, DecidableEq

/-- The whole server process: the `GameState` instance, the database, the
question bank, the settings row, and the ordered log of scoring-related
frames broadcast through `wss.clients`. -/
structure World where
  gs : GS
  db : DB
  questions : List Question
  settings : GameSettings
  events : List Event
deriving Repr, DecidableEq

/-- `getCurrentQuestionId()`: `null` before the game or the first question
has started; otherwise the id of `filtered[currentSlide]` (`undefined`,
hence `null`, when the index is outside the list). -/
def getCurrentQuestionId (w : World) : Option Int :=
  let st := w.gs.state
  if st.gameStarted && st.firstQuestionStarted then
    let filtered := filteredQuestions w.questions st
    if 0 ≤ st.currentSlide then
      (filtered.get? st.currentSlide.toNat).map (fun q => q.id)
    else none
  else none

/-- `scoreQuestionAndBroadcast(questionId)`: run the objective scoring pass
and broadcast one `player_score_updated` frame per score update. -/
def scoreStep (w : World) (qid : Int) : World :=
  let r := scoreCorrectAnswersForQuestion w.settings w.db qid
  { w with db := r.1,
           events := w.events ++
             r.2.map (fun u => Event.playerScoreUpdated u.playerId u.newScore) }

/-- The write-in commit block shared by `NEXT_SLIDE` and `TOGGLE_ANSWER`:
look the current question up; only for `type === 'write_in'` commit its
pending points; broadcast one `player_score_updated` frame per update and a
`pending_points_committed` frame when there was at least one. -/
def commitStep (w : World) (qid : Int) : World :=
  match w.questions.find? (fun q => decide (q.id = qid)) with
  | some q =>
    if q.qtype = "write_in" then
      let r := commitPendingPointsForQuestion w.db qid
      if 0 < r.2.length then
        { w with db := r.1,
                 events := w.events ++
                   r.2.map (fun u => Event.playerScoreUpdated u.playerId u.newScore) ++
                   [Event.pendingCommitted qid] }
      else { w with db := r.1 }
    else w
  | none => w

/-- The host actions of `handleGameAction` that drive scoring. -/
inductive GAction where
  | nextSlide
  | prevSlide
  | toggleAnswer
  | showQuestion
deriving Repr, DecidableEq

/-- `handleGameAction`: `NEXT_SLIDE` scores the question being left and
commits its write-in pending points, then advances; `TOGGLE_ANSWER` does the
same scoring and commit but only on the hidden-to-revealed transition, then
toggles; `PREV_SLIDE` and `SHOW_QUESTION` have no scoring side effect. -/
def dispatch (w : World) (a : GAction) : World :=
  match a with
  | .nextSlide =>
    let w1 :=
      match getCurrentQuestionId w with
      | some qid => commitStep (scoreStep w qid) qid
      | none => w
    { w1 with gs := w1.gs.nextSlide }
  | .prevSlide => { w with gs := w.gs.prevSlide }
  | .toggleAnswer =>
    let w1 :=
      if w.gs.state.showAnswer = false then
        match getCurrentQuestionId w with
        | some qid => commitStep (scoreStep w qid) qid
        | none => w
      else w
    { w1 with gs := w1.gs.toggleAnswer }
  | .showQuestion => { w with gs := w.gs.showQuestion }

/-- Run a sequence of host actions through the dispatcher. -/
def runGame (w : World) (as : List GAction) : World := as.foldl dispatch w

/-! ## Concrete instances used to evaluate the code on specific inputs -/

/-- Settings: multiplier 10, time decay off, floor 25%. -/
def flatSettings : GameSettings :=
  { scoreMultiplier := some 10, timerEatsPoints := some false,
    minPointsPercentage := some 25 }

/-- Settings: multiplier 10, time decay on, floor 25%. -/
def decaySettings : GameSettings :=
  { scoreMultiplier := some 10, timerEatsPoints := some true,
    minPointsPercentage := some 25 }

/-- A one-question bank: multiple-choice question 1. -/
def c1Questions : List Question :=
  [{ id := 1, category := "general", qtype := "multiple_choice" }]

/-- Player 1 at score 0 with a correct answer to question 1 (no timing data,
no locked score). -/
def c1DB : DB :=
  { players := [{ id := 1, score := 0 }],
    answers := [{ playerId := 1, questionId := 1, isCorrect := some true,
                  timeRemaining := none, timeLimit := none, lockedScore := none }],
    pending := [], buzzes := [] }

/-- A session sitting on slide 0 with the question shown and the answer
still hidden. -/
def c1GS : GS :=
  { initGS with state :=
      { initSState with gameStarted := true, firstQuestionStarted := true } }

/-- The server immediately before the host reveals the answer to question 1. -/
def c1World : World :=
  { gs := c1GS, db := c1DB, questions := c1Questions, settings := flatSettings,
    events := [] }

/-- The host reveals the answer, then advances the slide. -/
def c1Final : World := runGame c1World [GAction.toggleAnswer, GAction.nextSlide]

/-- The host toggles the answer twice (reveal, then hide). -/
def c1Toggled : World := runGame c1World [GAction.toggleAnswer, GAction.toggleAnswer]

/-- Player 1 at score 0, no other rows. -/
def c2DB : DB :=
  { players := [{ id := 1, score := 0 }], answers := [], pending := [], buzzes := [] }

/-- Award 1 point, then 3 points, to player 1 on question 1. -/
def c2Awarded : DB := addPendingPoints (addPendingPoints c2DB 1 1 1 "Alice" "foo") 1 1 3 "Alice" "foo"

/-- Player 7 at score 0 answered question 1 correctly with 15 of 30 seconds
remaining, no locked score. -/
def c3Answer : AnswerRecord :=
  { playerId := 7, questionId := 1, isCorrect := some true,
    timeRemaining := some 15, timeLimit := some 30, lockedScore := none }

/-- The store for the time-decay scenario. -/
def c3DB : DB :=
  { players := [{ id := 7, score := 0 }], answers := [c3Answer], pending := [],
    buzzes := [] }

/-- An empty store for the buzzer traces. -/
def c4DB : DB := { players := [], answers := [], pending := [], buzzes := [] }

/-- Player 1 buzzes, player 2 buzzes, then each buzzes a second time, all on
question 7. -/
def c4Trace : DB :=
  (submitBuzzerResponse
    (submitBuzzerResponse
      (submitBuzzerResponse
        (submitBuzzerResponse c4DB 1 none 7).1 2 none 7).1 1 none 7).1 2 none 7).1

/-- Feud sub-state mid-round: team 1 active, team 2 opposing, two strikes. -/
def c5FS : FeudState :=
  { initFeudState with
    activeTeam := some 1, opposingTeam := some 2, strikes := 2,
    gamePhase := "team-play", teamAnswerCount := 2, buzzerOrder := [4, 5],
    currentBuzzerIndex := 1 }

/-- A session in feud mode with two strikes on team 1. -/
def c5GS : GS := { initGS with state := { initSState with feudState := c5FS } }

/-- Players 1 and 2 with pending write-in awards on question 9 (and one on
question 8 that must survive a commit of question 9). -/
def c6DB : DB :=
  { players := [{ id := 1, score := 5 }, { id := 2, score := 7 }],
    answers := [],
    pending := [{ playerId := 1, questionId := 9, points := 4, playerName := "Alice", answer := "ada" },
                { playerId := 2, questionId := 9, points := 2, playerName := "Bob", answer := "lovelace" },
                { playerId := 1, questionId := 8, points := 6, playerName := "Alice", answer := "other" }],
    buzzes := [] }

/-- A one-question bank: write-in question 9. -/
def c6Questions : List Question := [{ id := 9, category := "general", qtype := "write_in" }]

/-- The server sitting on write-in question 9, answer never revealed. -/
def c6World : World :=
  { gs := c1GS, db := c6DB, questions := c6Questions, settings := flatSettings,
    events := [] }

/-- A one-question bank used by the slide-bound counterexample. -/
def c7Questions : List Question :=
  [{ id := 1, category := "general", qtype := "multiple_choice" }]

/-- Four `nextSlide` presses from the initial state. -/
def c7GS : GS := runActs initGS [Act.nextSlide, Act.nextSlide, Act.nextSlide, Act.nextSlide]

/-- The delta `START_TIMER` sends through `updateState`. -/
def deltaTimerOn : StateDelta := { isTimerRunning := some true, firstQuestionStarted := some true }

/-- A delta touching only the answer-visibility flag. -/
def deltaShow : StateDelta := { showAnswer := some true }

/-- A session whose timer is running (one live interval). -/
def c10GS : GS := initGS.updateState deltaTimerOn

/-! ## Basic facts about the `GameState` operations -/

@[simp] theorem broadcastState_state (g : GS) : g.broadcastState.state = g.state := rfl

@[simp] theorem broadcastState_timerInterval (g : GS) :
    g.broadcastState.timerInterval = g.timerInterval := rfl

@[simp] theorem broadcastState_live (g : GS) : g.broadcastState.live = g.live := rfl

@[simp] theorem broadcastState_nextHandle (g : GS) :
    g.broadcastState.nextHandle = g.nextHandle := rfl

@[simp] theorem broadcastState_clients (g : GS) : g.broadcastState.clients = g.clients := rfl

@[simp] theorem broadcastEvent_state (g : GS) (t : String) :
    (g.broadcastEvent t).state = g.state := rfl

@[simp] theorem broadcastEvent_timerInterval (g : GS) (t : String) :
    (g.broadcastEvent t).timerInterval = g.timerInterval := rfl

@[simp] theorem broadcastEvent_live (g : GS) (t : String) :
    (g.broadcastEvent t).live = g.live := rfl

@[simp] theorem startTimer_state (g : GS) : g.startTimer.state = g.state := rfl

@[simp] theorem startTimer_timerInterval (g : GS) :
    g.startTimer.timerInterval = some g.nextHandle := rfl

@[simp] theorem stopTimer_state (g : GS) : g.stopTimer.state = g.state := by
  cases h : g.timerInterval <;> simp [GS.stopTimer, h]

@[simp] theorem stopTimer_timerInterval (g : GS) : g.stopTimer.timerInterval = none := by
  cases h : g.timerInterval <;> simp [GS.stopTimer, h]

@[simp] theorem applyTimerLogic_state (g : GS) (o : Option Bool) :
    (g.applyTimerLogic o).state = g.state := by
  cases o with
  | none => rfl
  | some b => cases b <;> simp [GS.applyTimerLogic]

@[simp] theorem updateState_state (g : GS) (d : StateDelta) :
    (g.updateState d).state = mergeState g.state d := by
  simp [GS.updateState]

@[simp] theorem resetTimer_state (g : GS) : g.resetTimer.state =
    { g.state with timer := jsIntOr g.state.timeLimit 30, isTimerRunning := false } := by
  simp [GS.resetTimer, mergeState]

@[simp] theorem nextSlide_state (g : GS) : g.nextSlide.state =
    ({ g.state with
        currentSlide := g.state.currentSlide + 1, showAnswer := false,
        firstQuestionStarted := false, isTimerRunning := false,
        timer := jsIntOr g.state.timeLimit 30 }) := by
  simp [GS.nextSlide, mergeState]

@[simp] theorem prevSlide_state (g : GS) : g.prevSlide.state =
    ({ g.state with
        currentSlide := max 0 (g.state.currentSlide - 1), showAnswer := false,
        firstQuestionStarted := false, isTimerRunning := false,
        timer := jsIntOr g.state.timeLimit 30 }) := by
  simp [GS.prevSlide, mergeState]

@[simp] theorem toggleAnswer_state (g : GS) : g.toggleAnswer.state =
    { g.state with showAnswer := !g.state.showAnswer, isTimerRunning := false } := by
  simp [GS.toggleAnswer, mergeState]

/-! ## The timer-interval invariant -/

/-- The interval registry a `GameState` in a consistent configuration has:
the remembered handle is the one live interval, or none. -/
def expectedLive (o : Option Nat) : List Nat :=
  match o with
  | some h => [h]
  | none => []

/-- The registry part of the timer invariant. -/
def WeakTimerInv (g : GS) : Prop := g.live = expectedLive g.timerInterval

/-- The timer invariant: the live intervals are exactly the remembered
handle (so never more than one), and a raised `isTimerRunning` flag means a
handle is remembered (so exactly one tick loop is live). -/
def TimerInv (g : GS) : Prop :=
  WeakTimerInv g ∧ (g.state.isTimerRunning = true → g.timerInterval.isSome = true)

theorem weakTimerInv_of_timerInv {g : GS} (h : TimerInv g) : WeakTimerInv g := h.1

theorem stopTimer_live {g : GS} (h : WeakTimerInv g) : g.stopTimer.live = [] := by
  cases hti : g.timerInterval with
  | none =>
    have := h
    simp only [WeakTimerInv, hti, expectedLive] at this
    simp [GS.stopTimer, hti, this]
  | some x =>
    have := h
    simp only [WeakTimerInv, hti, expectedLive] at this
    simp [GS.stopTimer, hti, this]

theorem weakTimerInv_stopTimer {g : GS} (h : WeakTimerInv g) :
    WeakTimerInv g.stopTimer := by
  simp [WeakTimerInv, stopTimer_live h, expectedLive]

theorem startTimer_live {g : GS} (h : WeakTimerInv g) :
    g.startTimer.live = [g.nextHandle] := by
  cases hti : g.timerInterval with
  | none =>
    have := h
    simp only [WeakTimerInv, hti, expectedLive] at this
    simp [GS.startTimer, hti, this]
  | some x =>
    have := h
    simp only [WeakTimerInv, hti, expectedLive] at this
    simp [GS.startTimer, hti, this]

theorem weakTimerInv_startTimer {g : GS} (h : WeakTimerInv g) :
    WeakTimerInv g.startTimer := by
  simp [WeakTimerInv, startTimer_live h, expectedLive]

theorem weakTimerInv_broadcastState {g : GS} (h : WeakTimerInv g) :
    WeakTimerInv g.broadcastState := h

theorem timerInv_updateState {g : GS} (d : StateDelta) (h : TimerInv g) :
    TimerInv (g.updateState d) := by
  rcases h with ⟨hw, hf⟩
  cases hd : d.isTimerRunning with
  | none =>
    refine ⟨?_, ?_⟩
    · simpa [GS.updateState, GS.applyTimerLogic, hd] using hw
    · intro hrun
      simp only [updateState_state, mergeState, hd, Option.getD] at hrun
      have : g.updateState d = ({ g with state := mergeState g.state d }).broadcastState := by
        simp [GS.updateState, GS.applyTimerLogic, hd]
      rw [this]
      exact hf hrun
  | some b =>
    cases b with
    | true =>
      have hrw : g.updateState d =
          (({ g with state := mergeState g.state d }).broadcastState).startTimer := by
        simp [GS.updateState, GS.applyTimerLogic, hd]
      rw [hrw]
      exact ⟨weakTimerInv_startTimer hw, by simp⟩
    | false =>
      have hrw : g.updateState d =
          (({ g with state := mergeState g.state d }).broadcastState).stopTimer := by
        simp [GS.updateState, GS.applyTimerLogic, hd]
      rw [hrw]
      refine ⟨weakTimerInv_stopTimer hw, ?_⟩
      intro hrun
      simp [mergeState, hd] at hrun

theorem timerInv_updateState_flagged {g : GS} (d : StateDelta) (hw : WeakTimerInv g)
    (hd : d.isTimerRunning = some false) : TimerInv (g.updateState d) := by
  have hrw : g.updateState d =
      (({ g with state := mergeState g.state d }).broadcastState).stopTimer := by
    simp [GS.updateState, GS.applyTimerLogic, hd]
  rw [hrw]
  refine ⟨weakTimerInv_stopTimer hw, ?_⟩
  intro hrun
  simp [mergeState, hd] at hrun

theorem timerInv_resetTimer {g : GS} (h : TimerInv g) : TimerInv g.resetTimer :=
  timerInv_updateState_flagged _ (weakTimerInv_stopTimer h.1) rfl

theorem timerInv_nextSlide {g : GS} (h : TimerInv g) : TimerInv g.nextSlide :=
  timerInv_updateState _ (timerInv_resetTimer h)

theorem timerInv_prevSlide {g : GS} (h : TimerInv g) : TimerInv g.prevSlide :=
  timerInv_updateState _ (timerInv_resetTimer h)

theorem timerInv_broadcastEvent {g : GS} (t : String) (h : TimerInv g) :
    TimerInv (g.broadcastEvent t) := h

theorem timerInv_tickBody {g : GS} (h : TimerInv g) : TimerInv g.tickBody := by
  unfold GS.tickBody
  by_cases ht : 0 < g.state.timer
  · simpa [ht] using h
  · simp only [ht, if_false]
    have h1 := timerInv_updateState { isTimerRunning := some false } h
    rcases h1 with ⟨hw, _⟩
    refine ⟨weakTimerInv_stopTimer hw, ?_⟩
    intro hrun
    simp [mergeState] at hrun

theorem timerInv_stepAct {g : GS} (a : Act) (h : TimerInv g) : TimerInv (stepAct g a) := by
  cases a with
  | updateState d => exact timerInv_updateState d h
  | resetTimer => exact timerInv_resetTimer h
  | startGame => exact timerInv_resetTimer (timerInv_updateState _ h)
  | endGame => exact timerInv_resetTimer (timerInv_updateState _ h)
  | nextSlide => exact timerInv_nextSlide h
  | prevSlide => exact timerInv_prevSlide h
  | showQuestion => exact timerInv_updateState _ h
  | toggleAnswer => exact timerInv_updateState _ h
  | tick hh =>
    simp only [stepAct]
    by_cases hc : hh ∈ g.live
    · simpa [hc] using timerInv_tickBody h
    · simpa [hc] using h
  | addClient c => exact h
  | removeClient c => exact h
  | initializeFeud a b =>
    exact timerInv_broadcastEvent _ (timerInv_updateState _ h)
  | switchTeams => exact timerInv_broadcastEvent _ (timerInv_updateState _ h)
  | addStrike =>
    refine timerInv_broadcastEvent _ ?_
    by_cases h3 : 3 ≤ g.state.feudState.strikes + 1
    · rw [if_pos h3]
      exact timerInv_broadcastEvent _ (timerInv_updateState _ (timerInv_updateState _ h))
    · rw [if_neg h3]
      exact timerInv_updateState _ h
  | removeStrike => exact timerInv_broadcastEvent _ (timerInv_updateState _ h)
  | setPhase p => exact timerInv_broadcastEvent _ (timerInv_updateState _ h)

theorem timerInv_initGS : TimerInv initGS := ⟨rfl, by simp [initGS, initSState]⟩

theorem timerInv_runActs (acts : List Act) (g : GS) (h : TimerInv g) :
    TimerInv (runActs g acts) := by
  induction acts generalizing g with
  | nil => exact h
  | cons a rest ih => exact ih _ (timerInv_stepAct a h)

theorem updateState_live_true (g : GS) (d : StateDelta) (hw : WeakTimerInv g)
    (hd : d.isTimerRunning = some true) : (g.updateState d).live = [g.nextHandle] := by
  have hrw : g.updateState d =
      (({ g with state := mergeState g.state d }).broadcastState).startTimer := by
    simp [GS.updateState, GS.applyTimerLogic, hd]
  rw [hrw]
  exact startTimer_live hw

theorem updateState_live_false (g : GS) (d : StateDelta) (hw : WeakTimerInv g)
    (hd : d.isTimerRunning = some false) : (g.updateState d).live = [] := by
  have hrw : g.updateState d =
      (({ g with state := mergeState g.state d }).broadcastState).stopTimer := by
    simp [GS.updateState, GS.applyTimerLogic, hd]
  rw [hrw]
  exact stopTimer_live hw

theorem resetTimer_live (g : GS) (hw : WeakTimerInv g) : g.resetTimer.live = [] :=
  updateState_live_false _ _ (weakTimerInv_stopTimer hw) rfl

@[simp] theorem startTimer_sends (g : GS) : g.startTimer.sends = g.sends := rfl

@[simp] theorem stopTimer_sends (g : GS) : g.stopTimer.sends = g.sends := by
  cases h : g.timerInterval <;> simp [GS.stopTimer, h]

@[simp] theorem applyTimerLogic_sends (g : GS) (o : Option Bool) :
    (g.applyTimerLogic o).sends = g.sends := by
  cases o with
  | none => rfl
  | some b => cases b <;> simp [GS.applyTimerLogic]

theorem updateState_sends (g : GS) (d : StateDelta) :
    (g.updateState d).sends =
      g.sends ++ g.clients.map (fun c => (c, Msg.stateUpdate (mergeState g.state d))) := by
  simp [GS.updateState, GS.broadcastState]

theorem lookupScore_addPendingPoints (db : DB) (p q pts : Int) (n a2 : String) (x : Int) :
    lookupScore (addPendingPoints db p q pts n a2) x = lookupScore db x := rfl

theorem filter_not_filter_pair (p q : Int) (l : List PendingRecord) :
    (l.filter (fun r => !(decide (r.playerId = p ∧ r.questionId = q)))).filter
      (fun r => decide (r.playerId = p ∧ r.questionId = q)) = [] := by
  induction l with
  | nil => rfl
  | cons x t ih =>
    by_cases hx : x.playerId = p ∧ x.questionId = q
    · rw [List.filter_cons_of_neg (by simp [hx])]
      exact ih
    · rw [List.filter_cons_of_pos (by simp [hx]), List.filter_cons_of_neg (by simp [hx])]
      exact ih

theorem filter_pair_addPendingPoints (db : DB) (p q pts : Int) (n a2 : String) :
    (addPendingPoints db p q pts n a2).pending.filter
      (fun r => decide (r.playerId = p ∧ r.questionId = q)) =
      [{ playerId := p, questionId := q, points := pts, playerName := n, answer := a2 }] := by
  unfold addPendingPoints
  rw [List.filter_append, filter_not_filter_pair]
  simp

theorem filter_only_player_empty (pid qid : Int) (l : List PendingRecord)
    (hl : ∀ r ∈ l, r.questionId = qid → r.playerId = pid) :
    (l.filter (fun r => !(decide (r.playerId = pid ∧ r.questionId = qid)))).filter
      (fun r => decide (r.questionId = qid)) = [] := by
  induction l with
  | nil => rfl
  | cons x t ih =>
    have ih2 := ih (fun r hr h => hl r (List.mem_cons_of_mem _ hr) h)
    by_cases hq : x.questionId = qid
    · have hx : x.playerId = pid := hl x (List.mem_cons_self _ _) hq
      rw [List.filter_cons_of_neg (by simp [hx, hq])]
      exact ih2
    · rw [List.filter_cons_of_pos (by simp [hq]), List.filter_cons_of_neg (by simp [hq])]
      exact ih2

theorem pendingFor_addPendingPoints_only (db : DB) (pid qid pts : Int) (n a2 : String)
    (honly : ∀ r ∈ pendingFor db qid, r.playerId = pid) :
    pendingFor (addPendingPoints db pid qid pts n a2) qid =
      [{ playerId := pid, questionId := qid, points := pts, playerName := n, answer := a2 }] := by
  have honly2 : ∀ r ∈ db.pending, r.questionId = qid → r.playerId = pid := by
    intro r hr hq
    exact honly r (List.mem_filter.mpr ⟨hr, by simp [hq]⟩)
  unfold pendingFor addPendingPoints
  rw [List.filter_append, filter_only_player_empty pid qid db.pending honly2]
  simp

theorem find?_players_update (l : List Player) (pid ns x : Int) :
    (l.map (fun p => if p.id = pid then { p with score := ns } else p)).find?
        (fun p => decide (p.id = x)) =
      if x = pid then
        (l.find? (fun p => decide (p.id = x))).map (fun p => { p with score := ns })
      else l.find? (fun p => decide (p.id = x)) := by
  induction l with
  | nil => by_cases hx : x = pid <;> simp [hx]
  | cons p t ih =>
    rw [List.map_cons]
    by_cases hid : p.id = pid
    · rw [if_pos hid]
      by_cases hp : p.id = x
      · have hxp : x = pid := by rw [← hp, hid]
        rw [List.find?_cons_of_pos _ (by simp [hp]), if_pos hxp,
            List.find?_cons_of_pos _ (by simp [hp])]
        rfl
      · rw [List.find?_cons_of_neg _ (by simp [hp]), ih]
        by_cases hxp : x = pid
        · rw [if_pos hxp, if_pos hxp, List.find?_cons_of_neg _ (by simp [hp])]
        · rw [if_neg hxp, if_neg hxp, List.find?_cons_of_neg _ (by simp [hp])]
    · rw [if_neg hid]
      by_cases hp : p.id = x
      · by_cases hxp : x = pid
        · exact absurd (hp.trans hxp) hid
        · rw [List.find?_cons_of_pos _ (by simp [hp]), if_neg hxp,
              List.find?_cons_of_pos _ (by simp [hp])]
      · rw [List.find?_cons_of_neg _ (by simp [hp]), ih]
        by_cases hxp : x = pid
        · rw [if_pos hxp, if_pos hxp, List.find?_cons_of_neg _ (by simp [hp])]
        · rw [if_neg hxp, if_neg hxp, List.find?_cons_of_neg _ (by simp [hp])]

theorem lookupScore_set_pending (db : DB) (l : List PendingRecord) (x : Int) :
    lookupScore { db with pending := l } x = lookupScore db x := rfl

theorem lookupScore_updatePlayerScore (db : DB) (pid ns x : Int) :
    lookupScore (db.updatePlayerScore pid ns) x =
      if x = pid then (lookupScore db x).map (fun _ => ns) else lookupScore db x := by
  unfold lookupScore DB.updatePlayerScore
  rw [find?_players_update]
  by_cases h : x = pid
  · rw [if_pos h, if_pos h]
    cases db.players.find? (fun p => decide (p.id = x)) <;> rfl
  · rw [if_neg h, if_neg h]

theorem commitRowsFor_single (db : DB) (qid : Int) (r : PendingRecord) (p : Player)
    (hpend : pendingFor db qid = [r])
    (hf : db.players.find? (fun x => decide (x.id = r.playerId)) = some p) :
    commitRowsFor db qid = [(r, p.score)] := by
  unfold commitRowsFor
  rw [hpend, List.filterMap_cons, hf]
  rfl

theorem commit_single_row (db : DB) (qid : Int) (r : PendingRecord) (s : Int)
    (hrows : commitRowsFor db qid = [(r, s)]) :
    (commitPendingPointsForQuestion db qid).2 =
      [{ playerId := r.playerId, newScore := s + r.points,
         pointsAwarded := r.points }] ∧
    (commitPendingPointsForQuestion db qid).1 =
      { db.updatePlayerScore r.playerId (s + r.points) with
        pending := (db.updatePlayerScore r.playerId (s + r.points)).pending.filter
          (fun x => !(decide (x.questionId = qid))) } := by
  constructor <;>
  · simp only [commitPendingPointsForQuestion, hrows]
    rw [if_neg (List.cons_ne_nil _ _)]
    rfl

/-! ## Claim theorems -/

/-- C8: at every point of execution there is at most one live timer tick
loop; when `isTimerRunning` is true exactly one tick loop is live; starting
the timer through an `updateState` delta replaces any running loop with the
single fresh one rather than adding a second; and `stopTimer` / `resetTimer`
cancel any pending tick, leaving no live interval. -/
theorem timer_single_tick_loop (acts : List Act) :
    (runActs initGS acts).live.length ≤ 1 ∧
    ((runActs initGS acts).state.isTimerRunning = true →
      (runActs initGS acts).live.length = 1) ∧
    (∀ d : StateDelta, d.isTimerRunning = some true →
      ((runActs initGS acts).updateState d).live = [(runActs initGS acts).nextHandle]) ∧
    (runActs initGS acts).stopTimer.live = [] ∧
    (runActs initGS acts).resetTimer.live = [] := by
  obtain ⟨hw, hf⟩ := timerInv_runActs acts initGS timerInv_initGS
  refine ⟨?_, ?_, ?_, stopTimer_live hw, resetTimer_live _ hw⟩
  · rw [hw]
    cases (runActs initGS acts).timerInterval <;> simp [expectedLive]
  · intro hrun
    have hs := hf hrun
    rw [hw]
    cases hti : (runActs initGS acts).timerInterval with
    | none => rw [hti] at hs; simp at hs
    | some x => simp [expectedLive]
  · intro d hd
    exact updateState_live_true _ _ hw hd

/-- C8 witness: after `START_TIMER` from the initial state, the flag is up
and exactly one interval is live; a second start replaces it. -/
theorem timer_single_tick_loop_witness :
    (runActs initGS [Act.updateState deltaTimerOn]).live.length ≤ 1 ∧
    ((runActs initGS [Act.updateState deltaTimerOn]).state.isTimerRunning = true →
      (runActs initGS [Act.updateState deltaTimerOn]).live.length = 1) ∧
    (∀ d : StateDelta, d.isTimerRunning = some true →
      ((runActs initGS [Act.updateState deltaTimerOn]).updateState d).live =
        [(runActs initGS [Act.updateState deltaTimerOn]).nextHandle]) ∧
    (runActs initGS [Act.updateState deltaTimerOn]).stopTimer.live = [] ∧
    (runActs initGS [Act.updateState deltaTimerOn]).resetTimer.live = [] :=
  timer_single_tick_loop [Act.updateState deltaTimerOn]

/-- C9: `updateState` merges the delta over the previous state — every state
field whose key is absent from the delta keeps exactly its previous value —
and pushes the full merged state to every registered client. -/
theorem updateState_frame_and_broadcast (g : GS) (d : StateDelta) :
    (d.gameStarted = none → (g.updateState d).state.gameStarted = g.state.gameStarted) ∧
    (d.firstQuestionStarted = none →
      (g.updateState d).state.firstQuestionStarted = g.state.firstQuestionStarted) ∧
    (d.currentSlide = none → (g.updateState d).state.currentSlide = g.state.currentSlide) ∧
    (d.showAnswer = none → (g.updateState d).state.showAnswer = g.state.showAnswer) ∧
    (d.timer = none → (g.updateState d).state.timer = g.state.timer) ∧
    (d.isTimerRunning = none →
      (g.updateState d).state.isTimerRunning = g.state.isTimerRunning) ∧
    (d.selectedCategories = none →
      (g.updateState d).state.selectedCategories = g.state.selectedCategories) ∧
    (d.questionLimit = none →
      (g.updateState d).state.questionLimit = g.state.questionLimit) ∧
    (d.timeLimit = none → (g.updateState d).state.timeLimit = g.state.timeLimit) ∧
    (d.timedRounds = none → (g.updateState d).state.timedRounds = g.state.timedRounds) ∧
    (d.gameTitle = none → (g.updateState d).state.gameTitle = g.state.gameTitle) ∧
    (d.gameSubtitle = none →
      (g.updateState d).state.gameSubtitle = g.state.gameSubtitle) ∧
    (d.showQuestionCounter = none →
      (g.updateState d).state.showQuestionCounter = g.state.showQuestionCounter) ∧
    (d.showWaitScreen = none →
      (g.updateState d).state.showWaitScreen = g.state.showWaitScreen) ∧
    (d.playerMode = none → (g.updateState d).state.playerMode = g.state.playerMode) ∧
    (d.includedQuestions = none →
      (g.updateState d).state.includedQuestions = g.state.includedQuestions) ∧
    (d.feudState = none → (g.updateState d).state.feudState = g.state.feudState) ∧
    (g.updateState d).sends =
      g.sends ++ g.clients.map (fun c => (c, Msg.stateUpdate (mergeState g.state d))) :=
  ⟨fun hd => by simp [mergeState, hd], fun hd => by simp [mergeState, hd],
   fun hd => by simp [mergeState, hd], fun hd => by simp [mergeState, hd],
   fun hd => by simp [mergeState, hd], fun hd => by simp [mergeState, hd],
   fun hd => by simp [mergeState, hd], fun hd => by simp [mergeState, hd],
   fun hd => by simp [mergeState, hd], fun hd => by simp [mergeState, hd],
   fun hd => by simp [mergeState, hd], fun hd => by simp [mergeState, hd],
   fun hd => by simp [mergeState, hd], fun hd => by simp [mergeState, hd],
   fun hd => by simp [mergeState, hd], fun hd => by simp [mergeState, hd],
   fun hd => by simp [mergeState, hd], updateState_sends g d⟩

/-- C9 witness: a delta touching only `showAnswer` leaves the game title
unchanged (applying the frame theorem at a concrete delta). -/
theorem updateState_frame_witness :
    (initGS.updateState deltaShow).state.gameTitle = initGS.state.gameTitle :=
  (updateState_frame_and_broadcast initGS deltaShow).2.2.2.2.2.2.2.2.2.2.1 rfl

/-- C10: `toggleAnswer` flips `showAnswer`, forces `isTimerRunning` to false
(cancelling any live tick loop), and leaves every other state field exactly
as it was. -/
theorem toggleAnswer_stops_timer_and_only_toggles (g : GS) (h : TimerInv g) :
    g.toggleAnswer.state.showAnswer = !g.state.showAnswer ∧
    g.toggleAnswer.state.isTimerRunning = false ∧
    g.toggleAnswer.live = [] ∧
    g.toggleAnswer.state.gameStarted = g.state.gameStarted ∧
    g.toggleAnswer.state.firstQuestionStarted = g.state.firstQuestionStarted ∧
    g.toggleAnswer.state.currentSlide = g.state.currentSlide ∧
    g.toggleAnswer.state.timer = g.state.timer ∧
    g.toggleAnswer.state.selectedCategories = g.state.selectedCategories ∧
    g.toggleAnswer.state.questionLimit = g.state.questionLimit ∧
    g.toggleAnswer.state.timeLimit = g.state.timeLimit ∧
    g.toggleAnswer.state.timedRounds = g.state.timedRounds ∧
    g.toggleAnswer.state.gameTitle = g.state.gameTitle ∧
    g.toggleAnswer.state.gameSubtitle = g.state.gameSubtitle ∧
    g.toggleAnswer.state.showQuestionCounter = g.state.showQuestionCounter ∧
    g.toggleAnswer.state.showWaitScreen = g.state.showWaitScreen ∧
    g.toggleAnswer.state.playerMode = g.state.playerMode ∧
    g.toggleAnswer.state.includedQuestions = g.state.includedQuestions ∧
    g.toggleAnswer.state.feudState = g.state.feudState :=
  ⟨by simp, by simp, updateState_live_false _ _ h.1 rfl, by simp, by simp, by simp,
   by simp, by simp, by simp, by simp, by simp, by simp, by simp, by simp, by simp,
   by simp, by simp, by simp⟩

/-- C10 witness: applied to a session whose timer is running. -/
theorem toggleAnswer_stops_timer_witness :
    c10GS.toggleAnswer.state.showAnswer = !c10GS.state.showAnswer ∧
    c10GS.toggleAnswer.state.isTimerRunning = false ∧
    c10GS.toggleAnswer.live = [] ∧
    c10GS.toggleAnswer.state.gameStarted = c10GS.state.gameStarted ∧
    c10GS.toggleAnswer.state.firstQuestionStarted = c10GS.state.firstQuestionStarted ∧
    c10GS.toggleAnswer.state.currentSlide = c10GS.state.currentSlide ∧
    c10GS.toggleAnswer.state.timer = c10GS.state.timer ∧
    c10GS.toggleAnswer.state.selectedCategories = c10GS.state.selectedCategories ∧
    c10GS.toggleAnswer.state.questionLimit = c10GS.state.questionLimit ∧
    c10GS.toggleAnswer.state.timeLimit = c10GS.state.timeLimit ∧
    c10GS.toggleAnswer.state.timedRounds = c10GS.state.timedRounds ∧
    c10GS.toggleAnswer.state.gameTitle = c10GS.state.gameTitle ∧
    c10GS.toggleAnswer.state.gameSubtitle = c10GS.state.gameSubtitle ∧
    c10GS.toggleAnswer.state.showQuestionCounter = c10GS.state.showQuestionCounter ∧
    c10GS.toggleAnswer.state.showWaitScreen = c10GS.state.showWaitScreen ∧
    c10GS.toggleAnswer.state.playerMode = c10GS.state.playerMode ∧
    c10GS.toggleAnswer.state.includedQuestions = c10GS.state.includedQuestions ∧
    c10GS.toggleAnswer.state.feudState = c10GS.state.feudState :=
  toggleAnswer_stops_timer_and_only_toggles c10GS
    (timerInv_updateState deltaTimerOn timerInv_initGS)

/-- C7 counterexample: from the initial state, four `nextSlide` presses put
the slide index at 4 while the filtered question list has length 1 — the
index is not clamped to the list length, refuting the upper-bound half of
the claim. -/
theorem slide_bound_counterexample :
    c7GS.state.currentSlide = 4 ∧
    ((filteredQuestions c7Questions c7GS.state).length : Int) = 1 ∧
    ¬(c7GS.state.currentSlide ≤ ((filteredQuestions c7Questions c7GS.state).length : Int)) :=
  ⟨rfl, rfl, by decide⟩

/-- C7 amended: `nextSlide` moves the index up by exactly one with no upper
clamp, `prevSlide` clamps below at 0, so from a non-negative index the index
stays non-negative but can exceed the filtered question list length; both
operations also reset the timer to `timeLimit || 30`, turn it off, and clear
the reveal flags. -/
theorem advance_slide_amended (g : GS) (h0 : 0 ≤ g.state.currentSlide) :
    g.nextSlide.state.currentSlide = g.state.currentSlide + 1 ∧
    0 ≤ g.nextSlide.state.currentSlide ∧
    g.prevSlide.state.currentSlide = max 0 (g.state.currentSlide - 1) ∧
    0 ≤ g.prevSlide.state.currentSlide ∧
    g.nextSlide.state.showAnswer = false ∧
    g.nextSlide.state.firstQuestionStarted = false ∧
    g.nextSlide.state.isTimerRunning = false ∧
    g.nextSlide.state.timer = jsIntOr g.state.timeLimit 30 ∧
    g.prevSlide.state.showAnswer = false ∧
    g.prevSlide.state.firstQuestionStarted = false ∧
    g.prevSlide.state.isTimerRunning = false ∧
    g.prevSlide.state.timer = jsIntOr g.state.timeLimit 30 :=
  ⟨by simp, by simp; omega, by simp, by simp, by simp, by simp, by simp, by simp,
   by simp, by simp, by simp, by simp⟩

/-- C7 amended witness: applied at the initial state (index 0). -/
theorem advance_slide_amended_witness :
    initGS.nextSlide.state.currentSlide = initGS.state.currentSlide + 1 ∧
    0 ≤ initGS.nextSlide.state.currentSlide ∧
    initGS.prevSlide.state.currentSlide = max 0 (initGS.state.currentSlide - 1) ∧
    0 ≤ initGS.prevSlide.state.currentSlide ∧
    initGS.nextSlide.state.showAnswer = false ∧
    initGS.nextSlide.state.firstQuestionStarted = false ∧
    initGS.nextSlide.state.isTimerRunning = false ∧
    initGS.nextSlide.state.timer = jsIntOr initGS.state.timeLimit 30 ∧
    initGS.prevSlide.state.showAnswer = false ∧
    initGS.prevSlide.state.firstQuestionStarted = false ∧
    initGS.prevSlide.state.isTimerRunning = false ∧
    initGS.prevSlide.state.timer = jsIntOr initGS.state.timeLimit 30 :=
  advance_slide_amended initGS (by decide)

/-- C5: evaluating `addFeudStrike` at two prior strikes (the failing input):
the third strike does swap the team ids, reset the per-team answer count,
buzz queue and buzzer pointer, and set the phase to team-play — but the
strike counter stays at 3 instead of resetting to 0, so the very next
strike (4 ≥ 3) immediately switches the teams back. `removeFeudStrike`
decrements with a floor of 0 as claimed. -/
theorem feud_three_strikes_eval :
    c5GS.addFeudStrike.state.feudState.activeTeam = some 2 ∧
    c5GS.addFeudStrike.state.feudState.opposingTeam = some 1 ∧
    c5GS.addFeudStrike.state.feudState.teamAnswerCount = 0 ∧
    c5GS.addFeudStrike.state.feudState.buzzerOrder = [] ∧
    c5GS.addFeudStrike.state.feudState.currentBuzzerIndex = 0 ∧
    c5GS.addFeudStrike.state.feudState.gamePhase = "team-play" ∧
    c5GS.addFeudStrike.state.feudState.strikes = 3 ∧
    c5GS.addFeudStrike.addFeudStrike.state.feudState.activeTeam = some 1 ∧
    c5GS.addFeudStrike.addFeudStrike.state.feudState.strikes = 4 ∧
    c5GS.removeFeudStrike.state.feudState.strikes = 1 ∧
    initGS.removeFeudStrike.state.feudState.strikes = 0 :=
  ⟨rfl, rfl, rfl, rfl, rfl, rfl, rfl, rfl, rfl, rfl, rfl⟩

theorem scoreUpdates_eq (settings : GameSettings) (db : DB) (qid : Int) :
    (scoreCorrectAnswersForQuestion settings db qid).2 =
      (correctRowsFor db qid).map (fun r =>
        { playerId := r.1.playerId,
          newScore := r.2 + pointsForAnswer (jsOptIntOr settings.scoreMultiplier 10)
            (jsOptBoolOr settings.timerEatsPoints)
            (jsOptIntOr settings.minPointsPercentage 25) r.1,
          pointsAwarded := pointsForAnswer (jsOptIntOr settings.scoreMultiplier 10)
            (jsOptBoolOr settings.timerEatsPoints)
            (jsOptIntOr settings.minPointsPercentage 25) r.1 }) := rfl

theorem pointsForAnswer_scenario :
    pointsForAnswer (jsOptIntOr decaySettings.scoreMultiplier 10)
      (jsOptBoolOr decaySettings.timerEatsPoints)
      (jsOptIntOr decaySettings.minPointsPercentage 25) c3Answer = 5 := by
  have h1 : jsOptIntOr decaySettings.scoreMultiplier 10 = 10 := by decide
  have h2 : jsOptBoolOr decaySettings.timerEatsPoints = true := by decide
  have h3 : jsOptIntOr decaySettings.minPointsPercentage 25 = 25 := by decide
  rw [h1, h2, h3]
  show pointsForAnswer 10 true 25 c3Answer = 5
  have h4 : pointsForAnswer 10 true 25 c3Answer =
      jsRound ((10 : ℚ) * max ((25 : ℚ) / 100) ((15 : ℚ) / 30)) := by
    simp [pointsForAnswer, c3Answer]
  rw [h4, jsRound]
  rw [max_eq_right (by norm_num : (25 : ℚ) / 100 ≤ 15 / 30)]
  norm_num

/-- C3: for every correct answer scored by the objective path, the score
update carries points equal to the `lockedScore` snapshot verbatim when one
exists; otherwise, with time-decay on and a non-null `timeRemaining` and a
positive non-null `timeLimit`, points equal
`round(multiplier * max(minPct/100, remaining/limit))`; in every other case
points equal the flat multiplier. The final conjunct evaluates the scenario:
multiplier 10, decay on, floor 25%, limit 30 s, 15 s remaining — exactly 5
points awarded on top of the current score. -/
theorem objective_points_cases (settings : GameSettings) (db : DB) (qid : Int)
    (a : AnswerRecord) (s : Int) (hmem : (a, s) ∈ correctRowsFor db qid) :
    (∃ u ∈ (scoreCorrectAnswersForQuestion settings db qid).2,
      u.playerId = a.playerId ∧
      u.newScore = s + u.pointsAwarded ∧
      (∀ ls, a.lockedScore = some ls → u.pointsAwarded = ls) ∧
      (∀ tr tl, a.lockedScore = none → a.timeRemaining = some tr →
        a.timeLimit = some tl → jsOptBoolOr settings.timerEatsPoints = true →
        0 < tl →
        u.pointsAwarded =
          jsRound ((jsOptIntOr settings.scoreMultiplier 10 : ℚ) *
            max ((jsOptIntOr settings.minPointsPercentage 25 : ℚ) / 100) (tr / tl))) ∧
      ((a.lockedScore = none ∧
        (jsOptBoolOr settings.timerEatsPoints = false ∨ a.timeRemaining = none ∨
         a.timeLimit = none ∨ ∃ tl, a.timeLimit = some tl ∧ tl ≤ 0)) →
        u.pointsAwarded = jsOptIntOr settings.scoreMultiplier 10)) ∧
    (scoreCorrectAnswersForQuestion decaySettings c3DB 1).2 =
      [{ playerId := 7, newScore := 5, pointsAwarded := 5 }] := by
  constructor
  · rw [scoreUpdates_eq]
    refine ⟨_, List.mem_map_of_mem _ hmem, rfl, rfl, ?_, ?_, ?_⟩
    · intro ls hls
      simp [pointsForAnswer, hls]
    · intro tr tl hls htr htl hte htl0
      simp [pointsForAnswer, hls, htr, htl, hte, htl0]
    · rintro ⟨hls, hcase⟩
      rcases hcase with hte | htr | htl | ⟨tl, htl, htl0⟩
      · cases htr : a.timeRemaining <;> cases htl : a.timeLimit <;>
          simp [pointsForAnswer, hls, htr, htl, hte]
      · cases htl : a.timeLimit <;> simp [pointsForAnswer, hls, htr, htl]
      · cases htr : a.timeRemaining <;> simp [pointsForAnswer, hls, htr, htl]
      · cases htr : a.timeRemaining with
        | none => simp [pointsForAnswer, hls, htr, htl]
        | some tr =>
          have hnot : ¬(0 < tl) := not_lt.mpr htl0
          simp [pointsForAnswer, hls, htr, htl, hnot]
  · rw [scoreUpdates_eq]
    have hrows : correctRowsFor c3DB 1 = [(c3Answer, 0)] := rfl
    rw [hrows, List.map_cons, List.map_nil, pointsForAnswer_scenario]
    rfl

/-- C3 witness: the decay scenario record is in the join for question 1 of
the scenario store; applying the theorem there. -/
theorem objective_points_cases_witness :
    (∃ u ∈ (scoreCorrectAnswersForQuestion decaySettings c3DB 1).2,
      u.playerId = c3Answer.playerId ∧
      u.newScore = 0 + u.pointsAwarded ∧
      (∀ ls, c3Answer.lockedScore = some ls → u.pointsAwarded = ls) ∧
      (∀ tr tl, c3Answer.lockedScore = none → c3Answer.timeRemaining = some tr →
        c3Answer.timeLimit = some tl → jsOptBoolOr decaySettings.timerEatsPoints = true →
        0 < tl →
        u.pointsAwarded =
          jsRound ((jsOptIntOr decaySettings.scoreMultiplier 10 : ℚ) *
            max ((jsOptIntOr decaySettings.minPointsPercentage 25 : ℚ) / 100) (tr / tl))) ∧
      ((c3Answer.lockedScore = none ∧
        (jsOptBoolOr decaySettings.timerEatsPoints = false ∨
         c3Answer.timeRemaining = none ∨
         c3Answer.timeLimit = none ∨ ∃ tl, c3Answer.timeLimit = some tl ∧ tl ≤ 0)) →
        u.pointsAwarded = jsOptIntOr decaySettings.scoreMultiplier 10)) ∧
    (scoreCorrectAnswersForQuestion decaySettings c3DB 1).2 =
      [{ playerId := 7, newScore := 5, pointsAwarded := 5 }] :=
  objective_points_cases decaySettings c3DB 1 c3Answer 0 (by decide)

theorem filter_buzz_fresh (pid qid : Int) (l : List BuzzerEntry)
    (hl : ∀ b ∈ l, b.questionId = qid → b.playerId ≠ pid) :
    (l.filter (fun b => !(decide (b.playerId = pid ∧ b.questionId = qid)))).filter
      (fun b => decide (b.questionId = qid)) =
    l.filter (fun b => decide (b.questionId = qid)) := by
  induction l with
  | nil => rfl
  | cons x t ih =>
    have ih2 := ih (fun b hb h => hl b (List.mem_cons_of_mem _ hb) h)
    by_cases hq : x.questionId = qid
    · have hx : x.playerId ≠ pid := hl x (List.mem_cons_self _ _) hq
      rw [List.filter_cons_of_pos (by simp [hx]),
        List.filter_cons_of_pos (by simp [hq]),
        List.filter_cons_of_pos (by simp [hq]), ih2]
    · by_cases hx : x.playerId = pid ∧ x.questionId = qid
      · exact absurd hx.2 hq
      · rw [List.filter_cons_of_pos (by simp [hx]),
          List.filter_cons_of_neg (by simp [hq]),
          List.filter_cons_of_neg (by simp [hq]), ih2]

theorem buzzesFor_submit_fresh (db : DB) (qid pid : Int) (tid : Option Int)
    (hfresh : ∀ b ∈ buzzesFor db qid, b.playerId ≠ pid) :
    buzzesFor (submitBuzzerResponse db pid tid qid).1 qid =
      buzzesFor db qid ++
        [{ playerId := pid, teamId := tid, questionId := qid,
           buzzOrder := ((buzzesFor db qid).length : Int) + 1 }] := by
  have hl : ∀ b ∈ db.buzzes, b.questionId = qid → b.playerId ≠ pid := by
    intro b hb hq
    exact hfresh b (List.mem_filter.mpr ⟨hb, by simp [hq]⟩)
  show ((db.buzzes.filter (fun b => !(decide (b.playerId = pid ∧ b.questionId = qid)))
      ++ _).filter (fun b => decide (b.questionId = qid))) = _
  rw [List.filter_append, filter_buzz_fresh pid qid db.buzzes hl,
    List.filter_cons_of_pos (by simp), List.filter_nil]
  rfl

theorem buzzesFor_submitAll (qid : Int) (ps : List Int) : ∀ db : DB,
    ((buzzesFor db qid).map (fun b => b.playerId) ++ ps).Nodup →
    (buzzesFor (submitAll db qid ps) qid).map (fun b => (b.playerId, b.buzzOrder)) =
      (buzzesFor db qid).map (fun b => (b.playerId, b.buzzOrder)) ++
        ranksFrom (((buzzesFor db qid).length : Int) + 1) ps := by
  induction ps with
  | nil => intro db _; simp [submitAll, ranksFrom]
  | cons pid rest ih =>
    intro db h
    have hfresh : ∀ b ∈ buzzesFor db qid, b.playerId ≠ pid := by
      intro b hb
      have hdisj := List.disjoint_of_nodup_append h
      intro hbp
      exact hdisj (a := pid) (by rw [← hbp]; exact List.mem_map_of_mem _ hb)
        (List.mem_cons_self _ _)
    have hstep := buzzesFor_submit_fresh db qid pid none hfresh
    have hnodup2 : ((buzzesFor (submitBuzzerResponse db pid none qid).1 qid).map
        (fun b => b.playerId) ++ rest).Nodup := by
      rw [hstep, List.map_append, List.append_assoc]
      simpa using h
    have hih := ih (submitBuzzerResponse db pid none qid).1 hnodup2
    rw [show submitAll db qid (pid :: rest) =
        submitAll (submitBuzzerResponse db pid none qid).1 qid rest from rfl, hih,
      hstep]
    rw [List.map_append, List.append_assoc]
    congr 1
    rw [List.length_append]
    simp only [List.map_cons, List.map_nil, List.singleton_append,
      List.length_cons, List.length_nil]
    rw [show (((buzzesFor db qid).length + (0 + 1) : Nat) : Int) + 1 =
        (((buzzesFor db qid).length : Int) + 1) + 1 from by push_cast; ring]
    rfl

theorem applyScoreUpdates_pending (us : List ScoreUpdate) (db : DB) :
    (applyScoreUpdates us db).pending = db.pending := by
  induction us generalizing db with
  | nil => rfl
  | cons u t ih => exact ih _

theorem lookupScore_applyScoreUpdates_isSome (us : List ScoreUpdate) (db : DB) (x : Int) :
    (lookupScore (applyScoreUpdates us db) x).isSome = (lookupScore db x).isSome := by
  induction us generalizing db with
  | nil => rfl
  | cons u t ih =>
    rw [show applyScoreUpdates (u :: t) db =
        applyScoreUpdates t (db.updatePlayerScore u.playerId u.newScore) from rfl,
      ih, lookupScore_updatePlayerScore]
    by_cases h : x = u.playerId
    · rw [if_pos h]
      cases lookupScore db x <;> rfl
    · rw [if_neg h]

theorem lookupScore_applyScoreUpdates_not_mem (us : List ScoreUpdate) (db : DB) (x : Int)
    (hx : ∀ u ∈ us, u.playerId ≠ x) :
    lookupScore (applyScoreUpdates us db) x = lookupScore db x := by
  induction us generalizing db with
  | nil => rfl
  | cons u t ih =>
    rw [show applyScoreUpdates (u :: t) db =
        applyScoreUpdates t (db.updatePlayerScore u.playerId u.newScore) from rfl,
      ih _ (fun v hv => hx v (List.mem_cons_of_mem _ hv)),
      lookupScore_updatePlayerScore,
      if_neg (fun h => hx u (List.mem_cons_self _ _) h.symm)]

theorem lookupScore_applyScoreUpdates_mem (us : List ScoreUpdate) (db : DB)
    (u : ScoreUpdate) (hnodup : (us.map (fun v => v.playerId)).Nodup) (hu : u ∈ us)
    (hsome : (lookupScore db u.playerId).isSome = true) :
    lookupScore (applyScoreUpdates us db) u.playerId = some u.newScore := by
  induction us generalizing db with
  | nil => exact absurd hu (List.not_mem_nil u)
  | cons v t ih =>
    have hvt : v.playerId ∉ t.map (fun w => w.playerId) :=
      (List.nodup_cons.mp hnodup).1
    rcases List.mem_cons.mp hu with rfl | hu2
    · rw [show applyScoreUpdates (u :: t) db =
          applyScoreUpdates t (db.updatePlayerScore u.playerId u.newScore) from rfl,
        lookupScore_applyScoreUpdates_not_mem t _ u.playerId
          (fun w hw he => hvt (he ▸ List.mem_map_of_mem _ hw)),
        lookupScore_updatePlayerScore, if_pos rfl]
      obtain ⟨s, hs⟩ := Option.isSome_iff_exists.mp hsome
      rw [hs]
      rfl
    · have hne : u.playerId ≠ v.playerId := by
        intro he
        exact hvt (he ▸ List.mem_map_of_mem _ hu2)
      rw [show applyScoreUpdates (v :: t) db =
          applyScoreUpdates t (db.updatePlayerScore v.playerId v.newScore) from rfl]
      refine ih _ (List.nodup_cons.mp hnodup).2 hu2 ?_
      rw [lookupScore_updatePlayerScore, if_neg hne]
      exact hsome

theorem commitRowsFor_eq_map (db : DB) (qid : Int)
    (hplayers : ∀ r ∈ pendingFor db qid, (lookupScore db r.playerId).isSome = true) :
    commitRowsFor db qid =
      (pendingFor db qid).map (fun r => (r, (lookupScore db r.playerId).getD 0)) := by
  unfold commitRowsFor
  have key : ∀ l : List PendingRecord,
      (∀ r ∈ l, (lookupScore db r.playerId).isSome = true) →
      l.filterMap (fun r =>
        (db.players.find? (fun p => decide (p.id = r.playerId))).map
          (fun p => (r, p.score))) =
      l.map (fun r => (r, (lookupScore db r.playerId).getD 0)) := by
    intro l hl
    induction l with
    | nil => rfl
    | cons r t ih =>
      have hr := hl r (List.mem_cons_self _ _)
      obtain ⟨p, hp⟩ : ∃ p,
          db.players.find? (fun p => decide (p.id = r.playerId)) = some p := by
        unfold lookupScore at hr
        cases hf : db.players.find? (fun p => decide (p.id = r.playerId)) with
        | none => rw [hf] at hr; simp at hr
        | some p => exact ⟨p, rfl⟩
      have hgd : (lookupScore db r.playerId).getD 0 = p.score := by
        unfold lookupScore
        rw [hp]
        rfl
      rw [List.filterMap_cons, hp, List.map_cons, hgd]
      exact congrArg (List.cons (r, p.score))
        (ih (fun r2 h2 => hl r2 (List.mem_cons_of_mem _ h2)))
  exact key (pendingFor db qid) hplayers

theorem filter_not_filter_q (qid : Int) (l : List PendingRecord) :
    (l.filter (fun r => !(decide (r.questionId = qid)))).filter
      (fun r => decide (r.questionId = qid)) = [] := by
  induction l with
  | nil => rfl
  | cons x t ih =>
    by_cases hx : x.questionId = qid
    · rw [List.filter_cons_of_neg (by simp [hx])]
      exact ih
    · rw [List.filter_cons_of_pos (by simp [hx]), List.filter_cons_of_neg (by simp [hx])]
      exact ih

theorem filter_other_q (qid q2 : Int) (hne : q2 ≠ qid) (l : List PendingRecord) :
    (l.filter (fun r => !(decide (r.questionId = qid)))).filter
      (fun r => decide (r.questionId = q2)) =
    l.filter (fun r => decide (r.questionId = q2)) := by
  induction l with
  | nil => rfl
  | cons x t ih =>
    by_cases hx2 : x.questionId = q2
    · have hxq : ¬(x.questionId = qid) := by rw [hx2]; exact hne
      rw [List.filter_cons_of_pos (by simp [hxq]),
        List.filter_cons_of_pos (by simp [hx2]),
        List.filter_cons_of_pos (by simp [hx2]), ih]
    · by_cases hxq : x.questionId = qid
      · rw [List.filter_cons_of_neg (by simp [hxq]),
          List.filter_cons_of_neg (by simp [hx2]), ih]
      · rw [List.filter_cons_of_pos (by simp [hxq]),
          List.filter_cons_of_neg (by simp [hx2]),
          List.filter_cons_of_neg (by simp [hx2]), ih]

theorem commit_maps_to_updates (db : DB) (qid : Int) :
    ((pendingFor db qid).map
        (fun r => (r, (lookupScore db r.playerId).getD 0))).map
      (fun r => ({ playerId := r.1.playerId,
                   newScore := r.2 + r.1.points,
                   pointsAwarded := r.1.points } : ScoreUpdate)) =
      commitUpdates db qid := by
  rw [List.map_map]
  rfl

theorem commit_rows_nil (db : DB) (qid : Int) (h : commitRowsFor db qid = []) :
    commitPendingPointsForQuestion db qid = (db, []) := by
  unfold commitPendingPointsForQuestion
  rw [h]
  rfl

theorem commit_nonempty_fst (db : DB) (qid : Int)
    (hplayers : ∀ r ∈ pendingFor db qid, (lookupScore db r.playerId).isSome = true)
    (hemp : ¬(pendingFor db qid = [])) :
    (commitPendingPointsForQuestion db qid).1 =
      { applyScoreUpdates (commitUpdates db qid) db with
        pending := (applyScoreUpdates (commitUpdates db qid) db).pending.filter
          (fun x => !(decide (x.questionId = qid))) } ∧
    (commitPendingPointsForQuestion db qid).2 = commitUpdates db qid := by
  have hrows := commitRowsFor_eq_map db qid hplayers
  have hne : ¬((pendingFor db qid).map
      (fun r => (r, (lookupScore db r.playerId).getD 0)) = []) := by
    intro hcon
    exact hemp (List.map_eq_nil_iff.mp hcon)
  constructor <;>
  · simp only [commitPendingPointsForQuestion, hrows, commit_maps_to_updates]
    rw [if_neg hne]

theorem commit_pending_empties (db : DB) (qid : Int)
    (hplayers : ∀ r ∈ pendingFor db qid, (lookupScore db r.playerId).isSome = true) :
    pendingFor (commitPendingPointsForQuestion db qid).1 qid = [] := by
  by_cases hemp : pendingFor db qid = []
  · have hrows0 : commitRowsFor db qid = [] := by
      rw [commitRowsFor_eq_map db qid hplayers, hemp]
      rfl
    rw [commit_rows_nil db qid hrows0]
    exact hemp
  · rw [(commit_nonempty_fst db qid hplayers hemp).1]
    exact filter_not_filter_q qid _

theorem scoreStep_questions (w : World) (qid : Int) :
    (scoreStep w qid).questions = w.questions := rfl

theorem scoreStep_db_pending (w : World) (qid : Int) :
    (scoreStep w qid).db.pending = w.db.pending :=
  applyScoreUpdates_pending _ _

theorem dispatch_next_commits (w : World) (qid : Int) (qq : Question)
    (hplayers : ∀ r ∈ pendingFor w.db qid, (lookupScore w.db r.playerId).isSome = true)
    (hcur : getCurrentQuestionId w = some qid)
    (hfq : w.questions.find? (fun q => decide (q.id = qid)) = some qq)
    (hqt : qq.qtype = "write_in") :
    pendingFor (dispatch w GAction.nextSlide).db qid = [] := by
  have hpl2 : ∀ r ∈ pendingFor (scoreStep w qid).db qid,
      (lookupScore (scoreStep w qid).db r.playerId).isSome = true := by
    intro r hr
    have hr2 : r ∈ pendingFor w.db qid := by
      have : pendingFor (scoreStep w qid).db qid = pendingFor w.db qid := by
        unfold pendingFor
        rw [scoreStep_db_pending]
      rw [this] at hr
      exact hr
    exact (lookupScore_applyScoreUpdates_isSome
      (scoreCorrectAnswersForQuestion w.settings w.db qid).2 w.db r.playerId).trans
      (hplayers r hr2)
  have hempty := commit_pending_empties (scoreStep w qid).db qid hpl2
  simp only [dispatch, hcur]
  simp only [commitStep, scoreStep_questions, hfq, hqt, if_pos]
  by_cases hlen : 0 < (commitPendingPointsForQuestion (scoreStep w qid).db qid).2.length
  · rw [if_pos hlen]
    exact hempty
  · rw [if_neg hlen]
    exact hempty

/-- C6: committing a question's pending points applies every pending award
to the corresponding player's cumulative score, returns exactly one score
update (hence one `player_score_updated` broadcast) per pending row, deletes
all pending rows of that question while leaving other questions' rows
untouched, and a commit with zero pending rows succeeds with zero updates and
an unchanged store. Moreover advancing the slide (`NEXT_SLIDE`) while a
write-in question is current commits it even if the answer was never
revealed, so no pending award is silently lost. -/
theorem commit_pending_spec (db : DB) (qid : Int)
    (hplayers : ∀ r ∈ pendingFor db qid, (lookupScore db r.playerId).isSome = true)
    (hnodup : ((pendingFor db qid).map (fun r => r.playerId)).Nodup) :
    (commitPendingPointsForQuestion db qid).2 = commitUpdates db qid ∧
    (commitPendingPointsForQuestion db qid).2.length = (pendingFor db qid).length ∧
    (∀ r ∈ pendingFor db qid,
      lookupScore (commitPendingPointsForQuestion db qid).1 r.playerId =
        (lookupScore db r.playerId).map (fun s => s + r.points)) ∧
    pendingFor (commitPendingPointsForQuestion db qid).1 qid = [] ∧
    (∀ q2, q2 ≠ qid →
      pendingFor (commitPendingPointsForQuestion db qid).1 q2 = pendingFor db q2) ∧
    (pendingFor db qid = [] → commitPendingPointsForQuestion db qid = (db, [])) ∧
    (∀ (w : World) (qq : Question),
      (∀ r ∈ pendingFor w.db qid, (lookupScore w.db r.playerId).isSome = true) →
      getCurrentQuestionId w = some qid →
      w.questions.find? (fun q => decide (q.id = qid)) = some qq →
      qq.qtype = "write_in" →
      pendingFor (dispatch w GAction.nextSlide).db qid = []) := by
  by_cases hemp : pendingFor db qid = []
  · have hrows0 : commitRowsFor db qid = [] := by
      rw [commitRowsFor_eq_map db qid hplayers, hemp]
      rfl
    have hc : commitPendingPointsForQuestion db qid = (db, []) :=
      commit_rows_nil db qid hrows0
    refine ⟨?_, ?_, ?_, ?_, ?_, fun _ => hc,
      fun w qq hp hcur hf hq => dispatch_next_commits w qid qq hp hcur hf hq⟩
    · rw [hc]
      unfold commitUpdates
      rw [hemp]
      rfl
    · rw [hc, hemp]
      rfl
    · intro r hr
      rw [hemp] at hr
      exact absurd hr (List.not_mem_nil r)
    · rw [hc]
      exact hemp
    · intro q2 _
      rw [hc]
  · obtain ⟨hfst, hsnd⟩ := commit_nonempty_fst db qid hplayers hemp
    refine ⟨hsnd, ?_, ?_, commit_pending_empties db qid hplayers, ?_,
      fun h => absurd h hemp,
      fun w qq hp hcur hf hq => dispatch_next_commits w qid qq hp hcur hf hq⟩
    · rw [hsnd]
      unfold commitUpdates
      rw [List.length_map]
    · intro r hr
      have hu : ({ playerId := r.playerId,
                   newScore := (lookupScore db r.playerId).getD 0 + r.points,
                   pointsAwarded := r.points } : ScoreUpdate) ∈ commitUpdates db qid :=
        List.mem_map_of_mem _ hr
      have hnodup2 : ((commitUpdates db qid).map (fun v => v.playerId)).Nodup := by
        unfold commitUpdates
        rw [List.map_map]
        exact hnodup
      obtain ⟨s, hs⟩ := Option.isSome_iff_exists.mp (hplayers r hr)
      have hmem := lookupScore_applyScoreUpdates_mem (commitUpdates db qid) db _
        hnodup2 hu (hplayers r hr)
      rw [hfst, lookupScore_set_pending, hmem, hs]
      rfl
    · intro q2 hq2
      rw [hfst]
      have h1 : pendingFor { applyScoreUpdates (commitUpdates db qid) db with
          pending := (applyScoreUpdates (commitUpdates db qid) db).pending.filter
            (fun x => !(decide (x.questionId = qid))) } q2 =
          ((applyScoreUpdates (commitUpdates db qid) db).pending.filter
            (fun x => !(decide (x.questionId = qid)))).filter
              (fun r => decide (r.questionId = q2)) := rfl
      rw [h1, filter_other_q qid q2 hq2, applyScoreUpdates_pending]
      rfl

/-- C6 witness: two players with pending awards on write-in question 9 (and
one surviving row on question 8); commit applies both and empties question
9's rows. -/
theorem commit_pending_spec_witness :
    ((commitPendingPointsForQuestion c6DB 9).2 = commitUpdates c6DB 9 ∧
    (commitPendingPointsForQuestion c6DB 9).2.length = (pendingFor c6DB 9).length ∧
    (∀ r ∈ pendingFor c6DB 9,
      lookupScore (commitPendingPointsForQuestion c6DB 9).1 r.playerId =
        (lookupScore c6DB r.playerId).map (fun s => s + r.points)) ∧
    pendingFor (commitPendingPointsForQuestion c6DB 9).1 9 = [] ∧
    (∀ q2, q2 ≠ 9 →
      pendingFor (commitPendingPointsForQuestion c6DB 9).1 q2 = pendingFor c6DB q2) ∧
    (pendingFor c6DB 9 = [] → commitPendingPointsForQuestion c6DB 9 = (c6DB, [])) ∧
    (∀ (w : World) (qq : Question),
      (∀ r ∈ pendingFor w.db 9, (lookupScore w.db r.playerId).isSome = true) →
      getCurrentQuestionId w = some 9 →
      w.questions.find? (fun q => decide (q.id = 9)) = some qq →
      qq.qtype = "write_in" →
      pendingFor (dispatch w GAction.nextSlide).db 9 = [])) ∧
    pendingFor (dispatch c6World GAction.nextSlide).db 9 = [] ∧
    lookupScore (dispatch c6World GAction.nextSlide).db 1 = some 9 ∧
    lookupScore (dispatch c6World GAction.nextSlide).db 2 = some 9 :=
  ⟨commit_pending_spec c6DB 9 (by decide) (by decide), by decide, by decide, by decide⟩

/-- C4 counterexample: players 1 and 2 buzz on question 7, then each buzzes
again. The duplicates are not rejected: each replaces the player's entry and
reassigns its order to count + 1, ending with BOTH entries at order 3 — not
a permutation of the ranks 1..2, and player 1's original order-1 entry is
gone. -/
theorem buzz_order_counterexample :
    c4Trace.buzzes.map (fun b => (b.playerId, b.buzzOrder)) = [(1, 3), (2, 3)] ∧
    (buzzesFor c4Trace 7).map (fun b => b.buzzOrder) = [3, 3] ∧
    ¬((buzzesFor c4Trace 7).map (fun b => b.buzzOrder)).Nodup :=
  ⟨rfl, rfl, by decide⟩

/-- C4 amended: when every player buzzes at most once on a question (no
duplicate buzzes), the recorded orders are exactly the distinct ranks
1..N in arrival order, each first buzz getting the entry count plus one.
A duplicate buzz from a player who already buzzed is NOT rejected: it is
assigned order count + 1 (the count unchanged by the REPLACE) and the
player's existing entry is replaced with that new order. -/
theorem buzz_order_amended (db : DB) (qid : Int) (ps : List Int)
    (hnil : buzzesFor db qid = []) (hnodup : ps.Nodup) :
    (buzzesFor (submitAll db qid ps) qid).map (fun b => (b.playerId, b.buzzOrder)) =
      ranksFrom 1 ps ∧
    (∀ (db2 : DB) (pid : Int) (tid : Option Int),
      (∃ b ∈ buzzesFor db2 qid, b.playerId = pid) →
      (submitBuzzerResponse db2 pid tid qid).2.buzzOrder =
        ((buzzesFor db2 qid).length : Int) + 1 ∧
      ∀ b ∈ buzzesFor (submitBuzzerResponse db2 pid tid qid).1 qid,
        b.playerId = pid →
          b.buzzOrder = ((buzzesFor db2 qid).length : Int) + 1) := by
  constructor
  · have hmain := buzzesFor_submitAll qid ps db (by rw [hnil]; simpa using hnodup)
    rw [hnil] at hmain
    simpa using hmain
  · rintro db2 pid tid ⟨b0, hb0, hbp⟩
    refine ⟨rfl, ?_⟩
    intro b hb hbp2
    have hb2 : b ∈ (db2.buzzes.filter
        (fun x => !(decide (x.playerId = pid ∧ x.questionId = qid)))).filter
          (fun x => decide (x.questionId = qid)) ++
        ([{ playerId := pid, teamId := tid, questionId := qid,
            buzzOrder := ((buzzesFor db2 qid).length : Int) + 1 }].filter
          (fun x => decide (x.questionId = qid))) := by
      rw [← List.filter_append]
      exact hb
    rcases List.mem_append.mp hb2 with hbl | hbr
    · exfalso
      obtain ⟨hbmem, hbq⟩ := List.mem_filter.mp hbl
      obtain ⟨_, hnp⟩ := List.mem_filter.mp hbmem
      rw [Bool.not_eq_eq_eq_not, Bool.not_true, decide_eq_false_iff_not] at hnp
      exact hnp ⟨hbp2, by simpa using hbq⟩
    · have := List.mem_filter.mp hbr
      rw [List.mem_singleton.mp this.1]

/-- C4 amended witness: three distinct players buzz on question 7 of an
empty store — ranks come out 1, 2, 3; plus the duplicate-buzz clause. -/
theorem buzz_order_amended_witness :
    (buzzesFor (submitAll c4DB 7 [5, 6, 7]) 7).map
        (fun b => (b.playerId, b.buzzOrder)) = ranksFrom 1 [5, 6, 7] ∧
    (∀ (db2 : DB) (pid : Int) (tid : Option Int),
      (∃ b ∈ buzzesFor db2 7, b.playerId = pid) →
      (submitBuzzerResponse db2 pid tid 7).2.buzzOrder =
        ((buzzesFor db2 7).length : Int) + 1 ∧
      ∀ b ∈ buzzesFor (submitBuzzerResponse db2 pid tid 7).1 7,
        b.playerId = pid →
          b.buzzOrder = ((buzzesFor db2 7).length : Int) + 1) :=
  buzz_order_amended c4DB 7 [5, 6, 7] (by decide) (by decide)

/-- C2 counterexample: awarding +1 then +3 to the same (player, question)
pair and committing increases the score by 3, not 4 — the `/award` route's
`INSERT OR REPLACE` replaces the pending total instead of accumulating. -/
theorem pending_award_accumulate_counterexample :
    lookupScore (commitPendingPointsForQuestion c2Awarded 1).1 1 = some 3 ∧
    (commitPendingPointsForQuestion c2Awarded 1).2 =
      [{ playerId := 1, newScore := 3, pointsAwarded := 3 }] ∧
    lookupScore (commitPendingPointsForQuestion c2Awarded 1).1 1 ≠ some 4 :=
  ⟨rfl, rfl, by decide⟩

/-- C2 amended: each call to the award operation REPLACES that player's
pending total for the question with the given points (creating the record if
none exists), so awarding +1 and then +3 to the same pair and committing
increases the player's score by exactly 3 — the last award — in a single
delta. -/
theorem pending_award_replace_semantics (db : DB) (pid qid a b s : Int)
    (pn ans pn2 ans2 : String)
    (hscore : lookupScore db pid = some s)
    (honly : ∀ r ∈ pendingFor db qid, r.playerId = pid) :
    (∀ (db2 : DB) (p q pts : Int) (n a2 : String),
      (addPendingPoints db2 p q pts n a2).pending.filter
          (fun r => decide (r.playerId = p ∧ r.questionId = q)) =
        [{ playerId := p, questionId := q, points := pts, playerName := n,
           answer := a2 }]) ∧
    pendingFor (addPendingPoints (addPendingPoints db pid qid a pn ans)
        pid qid b pn2 ans2) qid =
      [{ playerId := pid, questionId := qid, points := b, playerName := pn2,
         answer := ans2 }] ∧
    (commitPendingPointsForQuestion
        (addPendingPoints (addPendingPoints db pid qid a pn ans) pid qid b pn2 ans2)
        qid).2 =
      [{ playerId := pid, newScore := s + b, pointsAwarded := b }] ∧
    lookupScore (commitPendingPointsForQuestion
        (addPendingPoints (addPendingPoints db pid qid a pn ans) pid qid b pn2 ans2)
        qid).1 pid = some (s + b) := by
  have h1 := pendingFor_addPendingPoints_only db pid qid a pn ans honly
  have honly1 : ∀ r ∈ pendingFor (addPendingPoints db pid qid a pn ans) qid,
      r.playerId = pid := by
    rw [h1]
    intro r hr
    rw [List.mem_singleton] at hr
    rw [hr]
  have h2 := pendingFor_addPendingPoints_only (addPendingPoints db pid qid a pn ans)
    pid qid b pn2 ans2 honly1
  have hs2 : lookupScore (addPendingPoints (addPendingPoints db pid qid a pn ans)
      pid qid b pn2 ans2) pid = some s := hscore
  obtain ⟨p, hf, hps⟩ : ∃ p, (addPendingPoints (addPendingPoints db pid qid a pn ans)
      pid qid b pn2 ans2).players.find? (fun p => decide (p.id = pid)) = some p ∧
      p.score = s := by
    unfold lookupScore at hs2
    cases hfd : (addPendingPoints (addPendingPoints db pid qid a pn ans)
        pid qid b pn2 ans2).players.find? (fun p => decide (p.id = pid)) with
    | none => rw [hfd] at hs2; simp at hs2
    | some q =>
      rw [hfd] at hs2
      refine ⟨q, rfl, ?_⟩
      simpa using hs2
  have hrows := commitRowsFor_single
    (addPendingPoints (addPendingPoints db pid qid a pn ans) pid qid b pn2 ans2) qid
    { playerId := pid, questionId := qid, points := b, playerName := pn2,
      answer := ans2 } p h2 hf
  rw [hps] at hrows
  obtain ⟨hsnd, hfst⟩ := commit_single_row
    (addPendingPoints (addPendingPoints db pid qid a pn ans) pid qid b pn2 ans2) qid
    { playerId := pid, questionId := qid, points := b, playerName := pn2,
      answer := ans2 } s hrows
  refine ⟨fun db2 p2 q2 pts n a2 => filter_pair_addPendingPoints db2 p2 q2 pts n a2,
    h2, ?_, ?_⟩
  · rw [hsnd]
  · rw [hfst, lookupScore_set_pending, lookupScore_updatePlayerScore,
      if_pos rfl, hs2]
    rfl

/-- C2 witness: player 1 at score 0, no prior pending rows; award 1 then 3
on question 1 and commit. -/
theorem pending_award_replace_witness :
    (∀ (db2 : DB) (p q pts : Int) (n a2 : String),
      (addPendingPoints db2 p q pts n a2).pending.filter
          (fun r => decide (r.playerId = p ∧ r.questionId = q)) =
        [{ playerId := p, questionId := q, points := pts, playerName := n,
           answer := a2 }]) ∧
    pendingFor (addPendingPoints (addPendingPoints c2DB 1 1 1 "Alice" "foo")
        1 1 3 "Alice" "foo") 1 =
      [{ playerId := 1, questionId := 1, points := 3, playerName := "Alice",
         answer := "foo" }] ∧
    (commitPendingPointsForQuestion
        (addPendingPoints (addPendingPoints c2DB 1 1 1 "Alice" "foo") 1 1 3
          "Alice" "foo") 1).2 =
      [{ playerId := 1, newScore := 0 + 3, pointsAwarded := 3 }] ∧
    lookupScore (commitPendingPointsForQuestion
        (addPendingPoints (addPendingPoints c2DB 1 1 1 "Alice" "foo") 1 1 3
          "Alice" "foo") 1).1 1 = some (0 + 3) :=
  pending_award_replace_semantics c2DB 1 1 1 3 0 "Alice" "foo" "Alice" "foo"
    (by decide) (by decide)

/-- C1: evaluating the dispatcher at the failing input: one player with a
correct multiple-choice answer, flat multiplier 10. Revealing the answer
(`TOGGLE_ANSWER`) awards 10 and broadcasts one score update; advancing
(`NEXT_SLIDE`) then awards the very same question again, ending at score 20
with a second broadcast — scoring runs at reveal-time AND at advance-time,
not "whichever happens first, never both". Toggling the visibility twice
(reveal then hide) does yield exactly one set of score broadcasts. -/
theorem objective_scoring_double_award_eval :
    lookupScore c1Final.db 1 = some 20 ∧
    c1Final.events =
      [Event.playerScoreUpdated 1 10, Event.playerScoreUpdated 1 20] ∧
    lookupScore c1Toggled.db 1 = some 10 ∧
    c1Toggled.events = [Event.playerScoreUpdated 1 10] :=
  ⟨rfl, rfl, rfl, rfl⟩

end Trivium
